import Mathlib

/-!
Verification development for the openrelik-worker-dissect worker.

The Python modules `src/tasks.py` (the generic Dissect query runner and the
in-process console-script invocation harness) and `src/target_query_bundle.py`
(the target-query bundle orchestrator) are embedded shallowly: pure helper
functions become Lean functions over `String`/`List`, the orchestration
functions become functions from an explicit environment (the external
collaborators: console-script execution, plugin discovery, the ambient
default writer URI, path materialization) to an outcome record that carries
the produced result or error together with the trace of invocations, export
events and the temporary Yara rule file's lifecycle.

Python strings are modelled by `String`; `bytes` values are modelled by their
UTF-8 decoded text, tagged by the `PyData` wrapper so that the
`isinstance(..., bytes)` branches of the source stay visible.  String
helpers (`strip`, `lower`, `split`, membership) are defined structurally on
the character list so that concrete runs reduce inside the kernel.
-/

namespace DissectWorker

/-! ### Python string primitives -/

/-- The ASCII whitespace characters stripped by Python `str.strip()`. -/
def pyIsSpaceChar (c : Char) : Bool :=
  c = ' ' || c = '\t' || c = '\n' || c = '\r' || c = '\x0b' || c = '\x0c'

/-- Python `str.strip()` (ASCII whitespace). -/
def pyStrip (s : String) : String :=
  ⟨((s.data.dropWhile pyIsSpaceChar).reverse.dropWhile pyIsSpaceChar).reverse⟩

/-- Python `str.lower()` on the ASCII range. -/
def pyLowerChar (c : Char) : Char :=
  if 'A' ≤ c && c ≤ 'Z' then Char.ofNat (c.toNat + 32) else c

/-- Python `str.lower()` on the ASCII range. -/
def pyLower (s : String) : String :=
  ⟨s.data.map pyLowerChar⟩

/-- Splits a character list at every character satisfying `p`; the splitting
characters are dropped, empty segments are kept (Python `str.split(sep)` /
`re.split` semantics). -/
def splitOnPredAux (p : Char → Bool) : List Char → List Char → List (List Char)
  | [], cur => [cur.reverse]
  | x :: xs, cur =>
    if p x then cur.reverse :: splitOnPredAux p xs []
    else splitOnPredAux p xs (x :: cur)

/-- Python `s.split(c)` for a one-character separator. -/
def pySplitChar (c : Char) (s : String) : List String :=
  (splitOnPredAux (fun x => x = c) s.data []).map (fun l => ⟨l⟩)

/-- Python `re.split(r"[\n,]", s)`: split at every newline or comma. -/
def pySplitNewlineComma (s : String) : List String :=
  (splitOnPredAux (fun x => x = '\n' || x = ',') s.data []).map (fun l => ⟨l⟩)

/-- Python `c in s` for a one-character needle. -/
def pyContainsChar (c : Char) (s : String) : Bool :=
  s.data.any (fun x => x = c)

/-- Character-list prefix test. -/
def charsIsPrefixOf : List Char → List Char → Bool
  | [], _ => true
  | _ :: _, [] => false
  | a :: as, b :: bs => a = b && charsIsPrefixOf as bs

/-- Character-list infix test. -/
def charsIsInfixOf (needle : List Char) : List Char → Bool
  | [] => charsIsPrefixOf needle []
  | b :: bs => charsIsPrefixOf needle (b :: bs) || charsIsInfixOf needle bs

/-- Substring containment (Python `needle in hay`), used to state what a
diagnostic message names. -/
def strContainsSub (hay needle : String) : Bool :=
  charsIsInfixOf needle.data hay.data

/-- Python `" ".join`-style intercalation. -/
def strIntercalate (sep : String) : List String → String
  | [] => ""
  | [x] => x
  | x :: xs => x ++ sep ++ strIntercalate sep xs

/-! ### Scope categories (`target_query_bundle.py` lines 32-66) -/

def CATEGORY_EVERYTHING : String := "everything"
def CATEGORY_ALL_EVENT_LOGS : String := "all_event_logs"
def CATEGORY_MFT_TIMELINE : String := "mft_timeline"
def CATEGORY_APPLICATION_EXECUTION : String := "application_execution"
def CATEGORY_FILE_FOLDER_OPENING : String := "file_folder_opening"
def CATEGORY_DELETED_ITEMS : String := "deleted_items_file_existence"
def CATEGORY_BROWSER_ACTIVITY : String := "browser_activity"
def CATEGORY_EXTERNAL_DEVICE : String := "external_device_usage"
def CATEGORY_USER_INFORMATION : String := "user_information"

def SCOPE_ORDER : List String :=
  [CATEGORY_EVERYTHING, CATEGORY_ALL_EVENT_LOGS, CATEGORY_MFT_TIMELINE,
   CATEGORY_APPLICATION_EXECUTION, CATEGORY_FILE_FOLDER_OPENING,
   CATEGORY_DELETED_ITEMS, CATEGORY_BROWSER_ACTIVITY,
   CATEGORY_EXTERNAL_DEVICE, CATEGORY_USER_INFORMATION]

/-- The `SCOPE_VALUE_TO_LABEL` dict, in insertion order. -/
def SCOPE_VALUE_TO_LABEL : List (String × String) :=
  [(CATEGORY_EVERYTHING, "Everything"),
   (CATEGORY_ALL_EVENT_LOGS, "All event logs"),
   (CATEGORY_MFT_TIMELINE, "MFT timeline"),
   (CATEGORY_APPLICATION_EXECUTION, "Application execution"),
   (CATEGORY_FILE_FOLDER_OPENING, "File & folder opening"),
   (CATEGORY_DELETED_ITEMS, "Deleted items & file existence"),
   (CATEGORY_BROWSER_ACTIVITY, "Browser activity"),
   (CATEGORY_EXTERNAL_DEVICE, "External device & USB usage"),
   (CATEGORY_USER_INFORMATION, "User information")]

/-- The derived `SCOPE_LABEL_TO_VALUE` dict (label → value). -/
def SCOPE_LABEL_TO_VALUE : List (String × String) :=
  SCOPE_VALUE_TO_LABEL.map (fun p => (p.2, p.1))

/-! ### `_normalise_scope` (`target_query_bundle.py` lines 393-427) -/

def normaliseScope (scope : Option String) : String :=
  match scope with
  | none => CATEGORY_EVERYTHING
  | some s =>
    let raw := pyStrip s
    if raw = "" then CATEGORY_EVERYTHING
    else
      match SCOPE_LABEL_TO_VALUE.find? (fun p => p.1 == raw) with
      | some p => p.2
      | none =>
        let lower := pyLower raw
        if lower ∈ [CATEGORY_EVERYTHING, "all", "everything"] then
          CATEGORY_EVERYTHING
        else if lower ∈ [CATEGORY_ALL_EVENT_LOGS, "all-event-logs", "all_event_logs", "evtx"] then
          CATEGORY_ALL_EVENT_LOGS
        else if lower ∈ [CATEGORY_MFT_TIMELINE, "mft", "mft-timeline", "mft_timeline"] then
          CATEGORY_MFT_TIMELINE
        else if lower ∈ [CATEGORY_APPLICATION_EXECUTION, "application", "application-execution"] then
          CATEGORY_APPLICATION_EXECUTION
        else if lower ∈ [CATEGORY_FILE_FOLDER_OPENING, "file-folder", "file_folder_opening", "file"] then
          CATEGORY_FILE_FOLDER_OPENING
        else if lower ∈ [CATEGORY_DELETED_ITEMS, "deleted", "deleted-items", "deleted_items", "file-existence"] then
          CATEGORY_DELETED_ITEMS
        else if lower ∈ [CATEGORY_BROWSER_ACTIVITY, "browser", "browser-activity", "browser_activity"] then
          CATEGORY_BROWSER_ACTIVITY
        else if lower ∈ [CATEGORY_EXTERNAL_DEVICE, "external", "external-device", "external_device", "usb", "usb-usage", "usb_usage"] then
          CATEGORY_EXTERNAL_DEVICE
        else
          match SCOPE_VALUE_TO_LABEL.find? (fun p => pyLower p.2 == lower) with
          | some p => p.1
          | none => CATEGORY_EVERYTHING

/-! ### `_normalise_scopes` (`target_query_bundle.py` lines 430-463) -/

/-- A raw item of a scope collection: Python `None`, a string, or any other
value (carried as its `str()` rendering). -/
inductive RawItem where
  | pynone : RawItem
  | str : String → RawItem
  | nonStr : String → RawItem
deriving DecidableEq

/-- The `raw_scopes` argument: Python `None`, a single non-collection value,
or a list/tuple/set of items. -/
inductive RawScopes where
  | pynone : RawScopes
  | single : RawItem → RawScopes
  | coll : List RawItem → RawScopes
deriving DecidableEq

/-- The items the normalisation loop iterates over. -/
def rawItems : RawScopes → List RawItem
  | .pynone => []
  | .single i => [i]
  | .coll items => items

/-- The `parts` computed for one item (line 446): strings with a comma are
comma-split, stripped and filtered; other values contribute their stripped
text. `None` items are skipped. -/
def scopeParts : RawItem → List String
  | .pynone => []
  | .str s =>
    if pyContainsChar ',' s then
      ((pySplitChar ',' s).map pyStrip).filter (fun p => p ≠ "")
    else [pyStrip s]
  | .nonStr s => [pyStrip s]

/-- One step of the accumulation loop (lines 450-455). -/
def addScope (acc : List String) (part : String) : List String :=
  if part = "" then acc
  else
    let v := normaliseScope (some part)
    if v ∈ acc then acc else acc ++ [v]

/-- The `normalised` list accumulated over all items. -/
def collectScopes (items : List RawItem) : List String :=
  items.foldl (fun acc item => (scopeParts item).foldl addScope acc) []

/-- Lines 457-463: empty stays empty, the `everything` wildcard collapses. -/
def finaliseScopes (normalised : List String) : List String :=
  if normalised = [] then []
  else if CATEGORY_EVERYTHING ∈ normalised then [CATEGORY_EVERYTHING]
  else normalised

def normaliseScopes (raw : RawScopes) (defaultToEverything : Bool := true) : List String :=
  match raw with
  | .pynone => if defaultToEverything then [CATEGORY_EVERYTHING] else []
  | .coll items =>
    if items.length = 0 then []
    else finaliseScopes (collectScopes items)
  | .single item => finaliseScopes (collectScopes [item])

/-! ### The preset catalog (`target_query_bundle.py` lines 134-364) -/

def RDUMP_ARGS : List String := ["-C", "--multi-timestamp"]

/-- A catalog preset.  Optional dict keys are modelled with `Option`; for
`rdump_args` the outer `Option` records whether the key is present at all
(presence with value `None` disables the transform, absence selects the
default), mirroring `preset.get("rdump_args", default_rdump)`.  Every catalog
literal defines `"categories"`, so the defensive `"category"` fallback of
`_resolve_presets_for_scope` is dead code for this catalog and the field is
a plain list here. -/
structure Preset where
  name : String
  command : Option String := none
  arguments : List String
  outputSuffix : String
  categories : List String
  rdumpArgs : Option (Option (List String)) := none
  dataType : Option String := none
  outputExtension : Option String := none
  decodeStdout : Option Bool := none
deriving DecidableEq

def TARGET_QUERY_BUNDLE : List Preset :=
  [{ name := "Local users (target-query)", arguments := ["-f", "users"],
     outputSuffix := "users", categories := [CATEGORY_USER_INFORMATION] },
   { name := "SAM user names (target-reg)", command := some "target-reg",
     arguments := ["-k", "HKEY_LOCAL_MACHINE\\SAM\\SAM\\Domains\\Account\\Users\\Names", "-d", "2"],
     outputSuffix := "sam_user_names", categories := [CATEGORY_USER_INFORMATION],
     rdumpArgs := some none, dataType := some "openrelik:dissect:target-reg:text",
     decodeStdout := some true },
   { name := "All event logs", arguments := ["-f", "evtx"],
     outputSuffix := "evtx", categories := [CATEGORY_ALL_EVENT_LOGS] },
   { name := "Generate a MFT Timeline", arguments := ["-f", "mft.records"],
     outputSuffix := "mft_timeline", categories := [CATEGORY_MFT_TIMELINE] },
   { name := "Shimcache", arguments := ["-f", "shimcache"],
     outputSuffix := "shimcache", categories := [CATEGORY_APPLICATION_EXECUTION] },
   { name := "Task Bar Feature Usage", arguments := ["-f", "featureusage"],
     outputSuffix := "featureusage", categories := [CATEGORY_APPLICATION_EXECUTION] },
   { name := "Amcache.hve", arguments := ["-f", "amcache"],
     outputSuffix := "amcache", categories := [CATEGORY_APPLICATION_EXECUTION] },
   { name := "Jump Lists", arguments := ["-f", "jumplist"],
     outputSuffix := "jumplist", categories := [CATEGORY_APPLICATION_EXECUTION] },
   { name := "Open/Save MRU", arguments := ["-f", "mru.opensave"],
     outputSuffix := "mru_opensave", categories := [CATEGORY_FILE_FOLDER_OPENING] },
   { name := "Recent Files (MRU)", arguments := ["-f", "mru.recentdocs"],
     outputSuffix := "mru_recentdocs", categories := [CATEGORY_FILE_FOLDER_OPENING] },
   { name := "Shortcut (LNK) Files", arguments := ["-f", "lnk"],
     outputSuffix := "lnk",
     categories := [CATEGORY_FILE_FOLDER_OPENING, CATEGORY_DELETED_ITEMS, CATEGORY_EXTERNAL_DEVICE] },
   { name := "Shell Bags", arguments := ["-f", "shellbags"],
     outputSuffix := "shellbags",
     categories := [CATEGORY_FILE_FOLDER_OPENING, CATEGORY_DELETED_ITEMS] },
   { name := "Office Recent Files", arguments := ["-f", "mru.msoffice"],
     outputSuffix := "mru_msoffice", categories := [CATEGORY_FILE_FOLDER_OPENING] },
   { name := "Office Trust Records", arguments := ["-f", "trusteddocs"],
     outputSuffix := "trusteddocs", categories := [CATEGORY_FILE_FOLDER_OPENING] },
   { name := "Last Visited MRU", arguments := ["-f", "mru"],
     outputSuffix := "mru", categories := [CATEGORY_APPLICATION_EXECUTION] },
   { name := "RunMRU", arguments := ["-f", "runkeys"],
     outputSuffix := "runkeys", categories := [CATEGORY_APPLICATION_EXECUTION] },
   { name := "Windows 10 Timeline (ActivitiesCache.db)", arguments := ["-f", "activitiescache"],
     outputSuffix := "activitiescache", categories := [CATEGORY_APPLICATION_EXECUTION] },
   { name := "BAM/DAM", arguments := ["-f", "bam"],
     outputSuffix := "bam", categories := [CATEGORY_APPLICATION_EXECUTION] },
   { name := "SRUM (System Resource Usage Monitor)", arguments := ["-f", "sru"],
     outputSuffix := "sru", categories := [CATEGORY_APPLICATION_EXECUTION] },
   { name := "Prefetch", arguments := ["-f", "prefetch"],
     outputSuffix := "prefetch", categories := [CATEGORY_APPLICATION_EXECUTION] },
   { name := "CapabilityAccessManager", arguments := ["-f", "cam"],
     outputSuffix := "cam", categories := [CATEGORY_APPLICATION_EXECUTION] },
   { name := "UserAssist", arguments := ["-f", "userassist"],
     outputSuffix := "userassist", categories := [CATEGORY_APPLICATION_EXECUTION] },
   { name := "Installed Services", arguments := ["-f", "services"],
     outputSuffix := "services", categories := [CATEGORY_APPLICATION_EXECUTION] },
   { name := "Recycle Bin", arguments := ["-f", "recyclebin"],
     outputSuffix := "recyclebin", categories := [CATEGORY_DELETED_ITEMS] },
   { name := "Thumbcache", arguments := ["-f", "thumbcache"],
     outputSuffix := "thumbcache", categories := [CATEGORY_DELETED_ITEMS] },
   { name := "Internet Explorer file:/// History", arguments := ["-f", "iexplore.history"],
     outputSuffix := "iexplore_history", categories := [CATEGORY_DELETED_ITEMS] },
   { name := "Search - WordWheelQuery", arguments := ["-f", "mru.acmru"],
     outputSuffix := "mru_acmru", categories := [CATEGORY_DELETED_ITEMS] },
   { name := "USB history (registry)", arguments := ["-f", "usb"],
     outputSuffix := "usb", categories := [CATEGORY_EXTERNAL_DEVICE] },
   { name := "Removable device activity", arguments := ["-f", "evtx"],
     outputSuffix := "evtx_removable_devices", categories := [CATEGORY_EXTERNAL_DEVICE],
     rdumpArgs := some (some
       ["-C", "--multi-timestamp", "-s",
        "(r.EventID in [4663,4656,6416] and r.Channel == \"Security\") or (r.EventID in [20001,20003] and r.Channel == \"System\") or (r.EventID in [1006])"]) },
   { name := "Browser (all below)", arguments := ["-f", "browser"],
     outputSuffix := "browser", categories := [CATEGORY_BROWSER_ACTIVITY] },
   { name := "Browser Cookies", arguments := ["-f", "browser.cookies"],
     outputSuffix := "browser_cookies", categories := [CATEGORY_BROWSER_ACTIVITY] },
   { name := "Browser Downloads", arguments := ["-f", "browser.downloads"],
     outputSuffix := "browser_downloads", categories := [CATEGORY_BROWSER_ACTIVITY] },
   { name := "Browser Extensions", arguments := ["-f", "browser.extensions"],
     outputSuffix := "browser_extensions", categories := [CATEGORY_BROWSER_ACTIVITY] },
   { name := "Browser History", arguments := ["-f", "browser.history"],
     outputSuffix := "browser_history", categories := [CATEGORY_BROWSER_ACTIVITY] },
   { name := "Browser Passwords", arguments := ["-f", "browser.passwords"],
     outputSuffix := "browser_passwords", categories := [CATEGORY_BROWSER_ACTIVITY] }]

/-! ### Plugin extraction and availability (lines 367-390) -/

/-- `_extract_plugin_from_arguments`: the token after the first `-f`. -/
def extractPluginFromArguments (arguments : List String) : Option String :=
  match arguments.indexOf? "-f" with
  | none => none
  | some i => arguments.get? (i + 1)

/-- `_plugin_available` over an availability oracle standing for
`find_functions` (the external toolkit's registry); a missing or empty
function name is always available. -/
def pluginAvailable (avail : String → Bool) : Option String → Bool
  | none => true
  | some f => if f = "" then true else avail f

/-! ### Preset selection (lines 494-516 and 573-583) -/

/-- The catalog with each preset's declaration index, standing for Python
object identity (`id(preset)`) in the de-duplication. -/
def catalogIndexed : List (Nat × Preset) := TARGET_QUERY_BUNDLE.enum

def presetMatchesScope (scope : String) (p : Preset) : Bool :=
  p.categories.any (fun c => c == scope)

/-- `_resolve_presets_for_scope` on the indexed catalog. -/
def resolvePresetsForScope (scope : String) : List (Nat × Preset) :=
  if scope = CATEGORY_EVERYTHING then catalogIndexed
  else catalogIndexed.filter (fun ip => presetMatchesScope scope ip.2)

/-- The inner loop of lines 576-583: append the presets of one scope,
skipping those whose identity was already seen. -/
def dedupAppendPresets (acc : List (Nat × Preset)) (xs : List (Nat × Preset)) :
    List (Nat × Preset) :=
  xs.foldl (fun a x => if a.any (fun y => y.1 == x.1) then a else a ++ [x]) acc

/-- Lines 573-583: the selected presets for the normalised scope list. -/
def selectedPresets (scopes : List String) : List (Nat × Preset) :=
  if CATEGORY_EVERYTHING ∈ scopes then catalogIndexed
  else scopes.foldl (fun acc scope => dedupAppendPresets acc (resolvePresetsForScope scope)) []

/-- `_classify_presets`: split into available and unavailable buckets. -/
def classifyPresets (avail : String → Bool) (presets : List Preset) :
    List (Preset × Option String) × List (Preset × Option String) :=
  presets.foldl
    (fun acc preset =>
      let plugin := extractPluginFromArguments preset.arguments
      if pluginAvailable avail plugin then (acc.1 ++ [(preset, plugin)], acc.2)
      else (acc.1, acc.2 ++ [(preset, plugin)]))
    ([], [])

/-! ### The invocation harness `invoke_console_script` (`tasks.py` lines 95-157)

The harness mutates process-wide interpreter state.  The state is modelled
explicitly: the argument vector and abstract handles (numbers) for the three
standard streams.  The behaviour of the resolved console-script callable is a
parameter: it returns a value, raises a `SystemExit` carrying a code, or
raises some other exception. -/

structure SysState where
  argv : List String
  stdin : Nat
  stdout : Nat
  stderr : Nat
deriving DecidableEq

/-- A Python value returned by the operation (or carried by `SystemExit`),
as far as the exit-code normalisation of lines 140-145 distinguishes them. -/
inductive PyResult where
  | int : Int → PyResult
  | pynone : PyResult
  | emptyStr : PyResult
  | otherVal : PyResult
deriving DecidableEq

/-- How the call to `function()` terminates. -/
inductive FnBehavior where
  | ret : PyResult → FnBehavior
  | sysExit : PyResult → FnBehavior
  | raised : FnBehavior
deriving DecidableEq

/-- Lines 140-145: an integer passes through, `None` and `""` become 0, any
other value becomes 1. -/
def normalizeExit : PyResult → Int
  | .int n => n
  | .pynone => 0
  | .emptyStr => 0
  | .otherVal => 1

inductive InvokeTermination where
  | returned : Int → InvokeTermination
  | raisedOut : InvokeTermination
deriving DecidableEq

structure InvokeRun where
  finalState : SysState
  outcome : InvokeTermination
deriving DecidableEq

/-- The state transition of `invoke_console_script`.  `dunderStdin` is the
interpreter's `sys.__stdin__`; `scriptFound` is whether entry-point
resolution succeeds (it raises before any state is touched otherwise);
`captureOut`, `captureErr` and `stdinWrap` are the fresh capture streams. -/
def invokeConsoleScript (st : SysState) (dunderStdin : Nat) (script : String)
    (args : List String) (scriptFound : Bool) (stdinSupplied : Bool)
    (captureOut captureErr stdinWrap : Nat) (beh : FnBehavior) : InvokeRun :=
  if scriptFound = false then
    { finalState := st, outcome := .raisedOut }
  else
    let originalArgv := st.argv
    let st1 := { st with argv := script :: args }
    let savedOut := st1.stdout
    let st2 := { st1 with stdout := captureOut }
    let savedErr := st2.stderr
    let st3 := { st2 with stderr := captureErr }
    let st4 := if stdinSupplied then { st3 with stdin := stdinWrap } else st3
    let st5 := { st4 with stderr := savedErr }
    let st6 := { st5 with stdout := savedOut }
    let st7 := { st6 with argv := originalArgv, stdin := dunderStdin }
    match beh with
    | .ret r => { finalState := st7, outcome := .returned (normalizeExit r) }
    | .sysExit c => { finalState := st7, outcome := .returned (normalizeExit c) }
    | .raised => { finalState := st7, outcome := .raisedOut }

/-! ### Shared run-model types -/

/-- Captured stream data: Python `bytes` (modelled by its UTF-8 decoded
text) or `str`. -/
inductive PyData where
  | bytes : String → PyData
  | str : String → PyData
deriving DecidableEq

/-- `x.decode("utf-8", errors="replace") if isinstance(x, bytes) else str(x)`. -/
def PyData.decoded : PyData → String
  | .bytes s => s
  | .str s => s

/-- One `invoke_console_script` call as the orchestrators issue it. -/
structure InvCall where
  script : String
  args : List String
  stdinData : Option PyData
  decodeStdout : Bool
deriving DecidableEq

/-- One `_export_records_with_writer` call (the record-sink collaborator). -/
structure ExportEvent where
  recordBytes : String
  writerUri : String
  queryName : String
  displayName : String
  caseName : Option String
deriving DecidableEq

/-- A produced output artifact (the storage collaborator's handle plus the
text written to it). -/
structure OutputFile where
  displayName : String
  extensionName : String
  dataType : String
  content : String
deriving DecidableEq, Inhabited

/-- A resolved input entry; `""` stands for an absent, `None` or empty
value (they are all falsy in the source). -/
structure InputEntry where
  path : String := ""
  displayName : String := ""
deriving DecidableEq

/-! ### `shlex.quote` / `quote_command` (`tasks.py` lines 71-74) -/

/-- The characters `shlex.quote` leaves unquoted (word characters and
`@ % + = : , . / -`, ASCII). -/
def shlexSafeChar (c : Char) : Bool :=
  c.isAlpha || c.isDigit || c = '_' || c = '@' || c = '%' || c = '+' ||
  c = '=' || c = ':' || c = ',' || c = '.' || c = '/' || c = '-'

def shlexQuote (s : String) : String :=
  if s = "" then "''"
  else if s.data.all shlexSafeChar then s
  else "'" ++ ⟨s.data.flatMap (fun c => if c = '\'' then "'\"'\"'".data else [c])⟩ ++ "'"

def quoteCommand (cmd : List String) : String :=
  strIntercalate " " (cmd.map shlexQuote)

/-! ### `pathlib.Path(...).name` / `.stem` for the POSIX paths involved -/

def pathName (p : String) : String :=
  (((pySplitChar '/' p).filter (fun s => s ≠ "")).getLast?).getD ""

def pathStem (p : String) : String :=
  let n := pathName p
  match pySplitChar '.' n with
  | [] => n
  | [_] => n
  | "" :: [_] => n
  | parts => strIntercalate "." parts.dropLast

/-! ### Writer configuration (`target_query_bundle.py` lines 593-607)

`_normalize_writer_uri` and `_resolve_default_writer` are imported from the
repository's `tasks` module, whose writer-export section is not among the
staged source files; they are modelled from the spec. -/

/-- Python truthiness of an optional string (`None` and `""` are falsy). -/
def pyTruthyOpt : Option String → Bool
  | none => false
  | some s => s ≠ ""

/-- Python `a or b` for strings where `""` stands for an absent value. -/
def pyOrStr (a b : String) : String := if a ≠ "" then a else b

/-- Modelled from the spec: `_normalize_writer_uri` (imported from the
`tasks` module, not among the staged files) turns the configured
export-destination value into an optional URI — absent when no non-blank
value was supplied (§4.6: enablement keys on whether an explicit destination
URI was supplied). -/
def normalizeWriterUri (raw : String) : Option String :=
  let t := pyStrip raw
  if t = "" then none else some t

/-- Line 593: the explicit destination URI from the configuration. -/
def writerUriFromConfigOf (elasticWriter recordWriter : String) : Option String :=
  normalizeWriterUri (pyOrStr elasticWriter recordWriter)

/-! ### `_normalise_yara_rule_paths` (lines 466-491) -/

/-- The inner loop for one item's text: strip, split at newlines and commas,
strip each segment, drop empties and duplicates. -/
def yaraPathsOfText (acc : List String) (s : String) : List String :=
  let text := pyStrip s
  if text = "" then acc
  else
    (pySplitNewlineComma text).foldl
      (fun a seg =>
        let cleaned := pyStrip seg
        if cleaned = "" ∨ cleaned ∈ a then a else a ++ [cleaned])
      acc

def normaliseYaraRulePaths (raw : RawScopes) : List String :=
  (rawItems raw).foldl
    (fun acc item =>
      match item with
      | .pynone => acc
      | .str s => yaraPathsOfText acc s
      | .nonStr s => yaraPathsOfText acc s)
    []

/-! ### The bundle orchestrator `_run_bundle` (lines 538-823) -/

/-- The bundle task configuration (`task_config`).  `Option` on
`bundleScopes`/`bundleScope` records key presence (a present key whose value
is `None` is `some .pynone`); plain strings use `""` for an absent or
`None` value wherever the source only tests truthiness. -/
structure BundleConfig where
  bundleScopes : Option RawScopes := none
  bundleScope : Option RawScopes := none
  yaraRule : String := ""
  yaraRulePaths : RawScopes := .pynone
  elasticWriter : String := ""
  recordWriter : String := ""
  enableRecordWriter : Option Bool := none
  caseName : String := ""

/-- The external collaborators of one bundle run: the plugin-availability
oracle (`find_functions`), the console-script execution oracle (exit code
and the captured stdout/stderr text of each call), the ambient default
writer URI (modelled from the spec: `_resolve_default_writer` reads a
process-wide environment default), the path-materialization collaborator
and the name `tempfile.NamedTemporaryFile` assigns to the inline rule
file. -/
structure BundleEnv where
  avail : String → Bool
  invoke : InvCall → Int × String × String
  defaultWriter : Option String
  materialize : String → String
  tmpRuleName : String

def writerEnabledOf (cfg : BundleConfig) : Bool :=
  match cfg.enableRecordWriter with
  | none => (writerUriFromConfigOf cfg.elasticWriter cfg.recordWriter).isSome
  | some b => b

/-- Line 596: the resolved writer URI (explicit, else ambient default). -/
def writerUriOf (env : BundleEnv) (cfg : BundleConfig) : Option String :=
  match writerUriFromConfigOf cfg.elasticWriter cfg.recordWriter with
  | some u => some u
  | none => env.defaultWriter

/-- Line 602: `(config.get("case_name") or "").strip() or None`. -/
def caseNameOf (cfg : BundleConfig) : Option String :=
  let t := pyStrip cfg.caseName
  if t = "" then none else some t

/-- Lines 643-653: the synthetic Yara preset. -/
def yaraPreset (yaraArguments : List String) : Preset :=
  { name := "Yara (custom rule)",
    arguments := ["-f", "yara", "-r"] ++ yaraArguments,
    outputSuffix := "yara", categories := [],
    rdumpArgs := some (some RDUMP_ARGS) }

/-- One per-entry metadata record (lines 776-791). -/
structure MetaEntry where
  inputName : String
  presetName : String
  plugin : Option String
  targetQueryCommand : String
  rdumpCommand : String
  targetQueryStderr : String
  rdumpStderr : String
  recordWriter : Option String
deriving DecidableEq

/-- The outcome of one (input, preset) loop body. -/
structure StepOut where
  outputFile : OutputFile
  metaEntry : MetaEntry
  calls : List InvCall
  exportEvent : Option ExportEvent
deriving DecidableEq

/-- An `invoke_console_script` call from the orchestrator: the oracle yields
the exit code and captured texts, which the harness returns decoded (`str`)
or raw (`bytes`) according to `decode_stdout` (lines 150-157). -/
def invokeScript (env : BundleEnv) (script : String) (args : List String)
    (stdinData : Option PyData) (decode : Bool) : InvCall × Int × PyData × PyData :=
  let call : InvCall :=
    { script := script, args := args, stdinData := stdinData, decodeStdout := decode }
  let res := env.invoke call
  (call, res.1,
   if decode then .str res.2.1 else .bytes res.2.1,
   if decode then .str res.2.2 else .bytes res.2.2)

/-- The primary invocation issued for a preset (lines 669-684): the working
path followed by the preset's arguments, decoded per the preset's flag
(default: text exactly when the command is not `target-query`). -/
def presetPrimaryCall (preset : Preset) (preparedPath : String) : InvCall :=
  { script := preset.command.getD "target-query",
    args := preparedPath :: preset.arguments, stdinData := none,
    decodeStdout := preset.decodeStdout.getD
      (preset.command.getD "target-query" ≠ "target-query") }

/-- Lines 714-715: the preset's transform arguments — the key's value when
present (possibly the explicit `None`), else the global default for
`target-query` presets and `None` for others. -/
def presetRdumpArgs (preset : Preset) : Option (List String) :=
  match preset.rdumpArgs with
  | some v => v
  | none =>
    if preset.command.getD "target-query" = "target-query" then some RDUMP_ARGS
    else none

/-- The data captured from a preset's primary invocation, as the harness
returns it: text when the preset decodes stdout, raw bytes otherwise. -/
def primaryStdoutOf (env : BundleEnv) (preset : Preset) (preparedPath : String) : PyData :=
  if preset.decodeStdout.getD (preset.command.getD "target-query" ≠ "target-query")
  then .str (env.invoke (presetPrimaryCall preset preparedPath)).2.1
  else .bytes (env.invoke (presetPrimaryCall preset preparedPath)).2.1

/-- The transform invocation (lines 729-733): `rdump` with the resolved
arguments, fed the primary output on stdin, decoded as text. -/
def rdumpCallOf (rArgs : List String) (stdin : PyData) : InvCall :=
  { script := "rdump", args := rArgs, stdinData := some stdin, decodeStdout := true }

/-- Lines 707-712: record-formatted bytes are kept for the export stage only
when export is enabled, a writer URI resolved, and the preset's primary
command is `target-query`. -/
def recordBytesOf (writerEnabled : Bool) (writerUri : Option String)
    (commandName : String) (queryStdout : PyData) : Option String :=
  if writerEnabled ∧ pyTruthyOpt writerUri ∧ commandName = "target-query" then
    some queryStdout.decoded
  else none

/-- Lines 764-773: the export call made for one preset, if any. -/
def exportEventOf (writerEnabled : Bool) (writerUri : Option String)
    (caseName : Option String) (displayName commandName : String)
    (recordBytes : Option String) : Option ExportEvent :=
  match recordBytes, writerUri with
  | some rb, some uri =>
    if writerEnabled ∧ uri ≠ "" then
      some { recordBytes := rb, writerUri := uri, queryName := commandName,
             displayName := displayName, caseName := caseName }
    else none
  | _, _ => none

/-- The loop body for one (input entry, preset) pair (lines 668-791).  A
`RuntimeError` is an `Except.error` carrying the message and the
invocations already made. -/
def runPresetStep (env : BundleEnv) (writerEnabled : Bool) (writerUri : Option String)
    (caseName : Option String) (displayName baseName preparedPath : String)
    (preset : Preset) (plugin : Option String) :
    Except (String × List InvCall) StepOut :=
  let commandName := preset.command.getD "target-query"
  let presetArgs := preset.arguments
  let commandArgs := preparedPath :: presetArgs
  let commandDisplay := quoteCommand (commandName :: preparedPath :: presetArgs)
  let decode := preset.decodeStdout.getD (commandName ≠ "target-query")
  match invokeScript env commandName commandArgs none decode with
  | (queryCall, exitCode, queryStdout, queryStderr) =>
  if exitCode ≠ 0 then
    let stderrText := queryStderr.decoded
    .error
      (if pyStrip stderrText ≠ "" then pyStrip stderrText
       else "bundle preset '" ++ preset.name ++ "' failed for " ++ displayName,
       [queryCall])
  else
    let recordBytes := recordBytesOf writerEnabled writerUri commandName queryStdout
    let rdumpArgs := presetRdumpArgs preset
    let stage2 : Except (String × List InvCall) (String × String × String × String × String) :=
      match rdumpArgs with
      | none =>
        .ok (queryStdout.decoded, "", "",
             preset.outputExtension.getD "txt",
             preset.dataType.getD "openrelik:dissect:target-query:text")
      | some rArgs =>
        match invokeScript env "rdump" rArgs (some queryStdout) true with
        | (rdumpCall, rExit, rOut, rErr) =>
        if rExit ≠ 0 then
          .error
            (if pyStrip rErr.decoded ≠ "" then pyStrip rErr.decoded
             else "rdump failed for preset '" ++ preset.name ++ "'",
             [queryCall, rdumpCall])
        else
          .ok (rOut.decoded, rErr.decoded, quoteCommand ("rdump" :: rArgs),
               preset.outputExtension.getD "csv",
               preset.dataType.getD "openrelik:dissect:target-query:csv")
    match stage2 with
    | .error e => .error e
    | .ok (rdumpStdout, rdumpStderr, rdumpCommandDisplay, outputExtension, dataType) =>
      let outputFile : OutputFile :=
        { displayName := baseName ++ "-" ++ preset.outputSuffix,
          extensionName := outputExtension, dataType := dataType,
          content := rdumpStdout }
      let exportEvent :=
        exportEventOf writerEnabled writerUri caseName displayName commandName recordBytes
      let rdumpCalls : List InvCall := match rdumpArgs with
        | none => []
        | some rArgs =>
          [{ script := "rdump", args := rArgs, stdinData := some queryStdout,
             decodeStdout := true }]
      .ok
        { outputFile := outputFile,
          metaEntry :=
            { inputName := displayName, presetName := preset.name, plugin := plugin,
              targetQueryCommand := commandDisplay, rdumpCommand := rdumpCommandDisplay,
              targetQueryStderr := pyStrip queryStderr.decoded,
              rdumpStderr := pyStrip rdumpStderr,
              recordWriter := if exportEvent.isSome then writerUri else none },
          calls := queryCall :: rdumpCalls,
          exportEvent := exportEvent }

/-- The trace accumulated by the main loop (lines 618-619 and 658-791). -/
structure BundleTrace where
  outputFiles : List OutputFile
  metaEntries : List MetaEntry
  calls : List InvCall
  exports : List ExportEvent
deriving DecidableEq

def emptyTrace : BundleTrace :=
  { outputFiles := [], metaEntries := [], calls := [], exports := [] }

/-- The preset loop for one input entry (lines 668-791). -/
def runPresetsForEntry (env : BundleEnv) (writerEnabled : Bool)
    (writerUri : Option String) (caseName : Option String)
    (displayName baseName preparedPath : String)
    (presets : List (Preset × Option String)) (tr : BundleTrace) :
    Except (String × BundleTrace) BundleTrace :=
  match presets with
  | [] => .ok tr
  | (preset, plugin) :: rest =>
    match runPresetStep env writerEnabled writerUri caseName displayName baseName
        preparedPath preset plugin with
    | .error (msg, calls) =>
      .error (msg, { tr with calls := tr.calls ++ calls })
    | .ok st =>
      runPresetsForEntry env writerEnabled writerUri caseName displayName baseName
        preparedPath rest
        { outputFiles := tr.outputFiles ++ [st.outputFile],
          metaEntries := tr.metaEntries ++ [st.metaEntry],
          calls := tr.calls ++ st.calls,
          exports := tr.exports ++ st.exportEvent.toList }

/-- The entry loop (lines 658-791): entries without a path are skipped, the
path is materialized for the duration of the entry's presets. -/
def runEntries (env : BundleEnv) (writerEnabled : Bool) (writerUri : Option String)
    (caseName : Option String) (presets : List (Preset × Option String))
    (entries : List InputEntry) (tr : BundleTrace) :
    Except (String × BundleTrace) BundleTrace :=
  match entries with
  | [] => .ok tr
  | e :: rest =>
    if e.path = "" then
      runEntries env writerEnabled writerUri caseName presets rest tr
    else
      let displayName := if e.displayName ≠ "" then e.displayName else pathName e.path
      let baseName := pathStem displayName
      let preparedPath := env.materialize e.path
      match runPresetsForEntry env writerEnabled writerUri caseName displayName
          baseName preparedPath presets tr with
      | .error err => .error err
      | .ok tr2 => runEntries env writerEnabled writerUri caseName presets rest tr2

/-- Lines 799-806: executed preset names, de-duplicated, skipping falsy names. -/
def dedupNames (names : List String) : List String :=
  names.foldl (fun acc n => if n ≠ "" ∧ n ∉ acc then acc ++ [n] else acc) []

/-- `SCOPE_VALUE_TO_LABEL.get(scope, scope)` (line 810). -/
def scopeLabelOf (scope : String) : String :=
  match SCOPE_VALUE_TO_LABEL.find? (fun p => p.1 == scope) with
  | some p => p.2
  | none => scope

/-- The success payload handed to `create_task_result` (lines 812-823). -/
structure BundleRunResult where
  outputFiles : List OutputFile
  executedPresets : List String
  skipped : List (String × Option String)
  selection : List String
  selectionLabels : List String
  command : String
  metaEntries : List MetaEntry
deriving DecidableEq, Inhabited

/-- The full observable outcome of `_run_bundle`: the returned result or the
raised error message, every console-script invocation issued, every record
export sent, whether the inline-rule temporary file was created, whether it
was removed, and whether control reached the code after the main loop. -/
structure BundleOutcome where
  result : Except String BundleRunResult
  calls : List InvCall
  exports : List ExportEvent
  tmpRuleCreated : Bool
  tmpRuleDeleted : Bool
  loopCompleted : Bool

/-- An error raised before the main loop (no invocation, no temp file). -/
def errOutcome (msg : String) : BundleOutcome :=
  { result := .error msg, calls := [], exports := [], tmpRuleCreated := false,
    tmpRuleDeleted := false, loopCompleted := false }

/-- Lines 559-569: the normalised scope selection from the configuration. -/
def scopesOf (cfg : BundleConfig) : List String :=
  let scopes0 :=
    match cfg.bundleScopes with
    | some raw => normaliseScopes raw false
    | none =>
      match cfg.bundleScope with
      | some raw => normaliseScopes raw true
      | none => normaliseScopes .pynone true
  if scopes0 = [] ∧ cfg.bundleScopes = none ∧ cfg.bundleScope = none then
    [CATEGORY_EVERYTHING]
  else scopes0

/-- Line 570: `(config.get("yara_rule") or "").strip()`. -/
def yaraRuleOf (cfg : BundleConfig) : String := pyStrip cfg.yaraRule

/-- Lines 629-637: the inline rule file is created exactly when inline rule
text is non-empty, and its name leads the Yara argument list, followed by
the normalised rule paths. -/
def tmpCreatedOf (cfg : BundleConfig) : Bool := yaraRuleOf cfg ≠ ""

def yaraArgumentsOf (env : BundleEnv) (cfg : BundleConfig) : List String :=
  (if tmpCreatedOf cfg then [env.tmpRuleName] else [])
    ++ normaliseYaraRulePaths cfg.yaraRulePaths

/-- Lines 588 and 609-656: the classified catalog presets, the synthetic
Yara preset injection and the skipped-preset records: (available presets,
skip list, yara-plugin-available flag). -/
def injectedOf (env : BundleEnv) (cfg : BundleConfig) :
    List (Preset × Option String) × List (String × Option String) × Bool :=
  let classified := classifyPresets env.avail
    ((selectedPresets (scopesOf cfg)).map Prod.snd)
  let availablePresets0 := classified.1
  let skippedMeta := classified.2.map (fun pp => (pp.1.name, pp.2))
  if yaraArgumentsOf env cfg ≠ [] then
    if pluginAvailable env.avail (some "yara") then
      (availablePresets0 ++ [(yaraPreset (yaraArgumentsOf env cfg), some "yara")],
       skippedMeta, true)
    else
      (availablePresets0, skippedMeta ++ [("Yara (custom rule)", some "yara")], false)
  else (availablePresets0, skippedMeta, false)

def availablePresetsOf (env : BundleEnv) (cfg : BundleConfig) :
    List (Preset × Option String) :=
  (injectedOf env cfg).1

/-- Lines 547-656 of `_run_bundle`: the pre-loop checks, each `raise`
an `Except.error`, in source order. -/
def prepareBundle (env : BundleEnv) (cfg : BundleConfig)
    (resolvedInputs : List InputEntry) (outputPath : String) :
    Except String Unit :=
  if outputPath = "" then .error "Output path is required for Dissect results"
  else if resolvedInputs = [] then .error "No input files available for Dissect"
  else if selectedPresets (scopesOf cfg) = []
      ∧ ¬(yaraRuleOf cfg ≠ "" ∨ normaliseYaraRulePaths cfg.yaraRulePaths ≠ []) then
    .error "No target-query presets match the selected scope"
  else if (classifyPresets env.avail ((selectedPresets (scopesOf cfg)).map Prod.snd)).1 = []
      ∧ ¬(yaraRuleOf cfg ≠ "" ∨ normaliseYaraRulePaths cfg.yaraRulePaths ≠ []) then
    .error "No target-query presets are available on this worker"
  else if writerEnabledOf cfg ∧ ¬pyTruthyOpt (writerUriOf env cfg) then
    .error "Record writer export was requested but no writer URI is configured."
  else .ok ()

/-- `_run_bundle` (lines 538-823): the pre-loop setup, then the main loop
over inputs and presets, the unconditional-at-this-point temporary-file
unlink (line 793), the empty-output check and the final report. -/
def runBundle (env : BundleEnv) (cfg : BundleConfig)
    (resolvedInputs : List InputEntry) (outputPath : String) : BundleOutcome :=
  match prepareBundle env cfg resolvedInputs outputPath with
  | .error msg => errOutcome msg
  | .ok _ =>
    match runEntries env (writerEnabledOf cfg) (writerUriOf env cfg) (caseNameOf cfg)
        (availablePresetsOf env cfg) resolvedInputs emptyTrace with
    | .error (msg, tr) =>
      { result := .error msg, calls := tr.calls, exports := tr.exports,
        tmpRuleCreated := tmpCreatedOf cfg, tmpRuleDeleted := false,
        loopCompleted := false }
    | .ok tr =>
      let tmpDeleted := tmpCreatedOf cfg
      if tr.outputFiles = [] then
        { result := .error "No target-query bundle outputs were generated",
          calls := tr.calls, exports := tr.exports, tmpRuleCreated := tmpCreatedOf cfg,
          tmpRuleDeleted := tmpDeleted, loopCompleted := true }
      else
        let executed :=
          dedupNames ((availablePresetsOf env cfg).map (fun pp => pp.1.name))
        let executedAll :=
          if (injectedOf env cfg).2.2 ∧ "Yara (custom rule)" ∉ executed
              ∧ yaraRuleOf cfg ≠ "" then
            executed ++ ["Yara (custom rule)"]
          else executed
        { result := .ok
            { outputFiles := tr.outputFiles, executedPresets := executedAll,
              skipped := (injectedOf env cfg).2.1, selection := scopesOf cfg,
              selectionLabels := (scopesOf cfg).map scopeLabelOf,
              command := "target-query presets: " ++ strIntercalate ", " executedAll,
              metaEntries := tr.metaEntries },
          calls := tr.calls, exports := tr.exports, tmpRuleCreated := tmpCreatedOf cfg,
          tmpRuleDeleted := tmpDeleted, loopCompleted := true }

/-! ### The generic query runner `_run_query` (`tasks.py` lines 174-281) -/

structure QueryConfig where
  query : String := ""
  argumentsRaw : Option String := none

/-- The collaborators of one query run: the console-script execution oracle
and the `shlex.split` lexer (standard-library collaborator; an error is the
`ValueError` text). -/
structure QueryEnv where
  invoke : InvCall → Int × String × String
  shlexSplit : String → Except String (List String)

/-- `_parse_argument_string` (lines 55-68). -/
def parseArgumentString (shlexSplit : String → Except String (List String))
    (raw : Option String) : Except String (List String) :=
  match raw with
  | none => .ok []
  | some s =>
    if s = "" then .ok []
    else
      let stripped := pyStrip s
      if stripped = "" then .ok []
      else
        match shlexSplit stripped with
        | .ok toks => .ok toks
        | .error e => .error ("Unable to parse Dissect arguments: " ++ e)

structure QueryMeta where
  inputName : String
  outputName : String
  command : String
  stderrText : String
deriving DecidableEq

structure QueryRunResult where
  outputFiles : List OutputFile
  queryName : String
  argumentTokens : List String
  command : String
  metaEntries : List QueryMeta
deriving DecidableEq, Inhabited

structure QueryOutcome where
  result : Except String QueryRunResult
  calls : List InvCall

/-- The invocation `_run_query` issues for one entry (line 232): the
query's tokens with the source path appended, decoded as text. -/
def queryCallOf (queryName : String) (tokens : List String) (path : String) : InvCall :=
  { script := queryName, args := tokens ++ [path], stdinData := none,
    decodeStdout := true }

/-- The per-entry loop of `_run_query` (lines 210-266). -/
def runQueryEntries (env : QueryEnv) (queryName : String) (tokens : List String)
    (entries : List InputEntry) (files : List OutputFile) (meta : List QueryMeta)
    (calls : List InvCall) :
    Except (String × List InvCall) (List OutputFile × List QueryMeta × List InvCall) :=
  match entries with
  | [] => .ok (files, meta, calls)
  | e :: rest =>
    if e.path = "" then runQueryEntries env queryName tokens rest files meta calls
    else
      let displayName := if e.displayName ≠ "" then e.displayName else pathName e.path
      let outputDisplayName := pathStem displayName ++ "-" ++ queryName
      let commandStr := quoteCommand (queryName :: (tokens ++ [e.path]))
      let call := queryCallOf queryName tokens e.path
      let res := env.invoke call
      if res.1 ≠ 0 then
        .error
          (if pyStrip res.2.2 ≠ "" then pyStrip res.2.2
           else "Dissect tool '" ++ queryName ++ "' failed for " ++ displayName ++
                " with exit code " ++ toString res.1,
           calls ++ [call])
      else
        runQueryEntries env queryName tokens rest
          (files ++
           [{ displayName := outputDisplayName, extensionName := "txt",
              dataType := "openrelik:dissect:query-result", content := res.2.1 }])
          (meta ++
           [{ inputName := displayName, outputName := outputDisplayName,
              command := commandStr, stderrText := pyStrip res.2.2 }])
          (calls ++ [call])

/-- `_run_query` (lines 174-281). -/
def runQuery (env : QueryEnv) (cfg : QueryConfig) (resolvedInputs : List InputEntry)
    (outputPath : String) : QueryOutcome :=
  if outputPath = "" then
    { result := .error "Output path is required for Dissect results", calls := [] }
  else
    let queryName := pyStrip cfg.query
    if queryName = "" then
      { result := .error "No Dissect console script provided. Please specify a query to run.",
        calls := [] }
    else
      match parseArgumentString env.shlexSplit cfg.argumentsRaw with
      | .error e => { result := .error e, calls := [] }
      | .ok tokens =>
        if resolvedInputs = [] then
          { result := .error "No input files available for Dissect", calls := [] }
        else
          match runQueryEntries env queryName tokens resolvedInputs [] [] [] with
          | .error (msg, calls) => { result := .error msg, calls := calls }
          | .ok (files, meta, calls) =>
            if files = [] then
              { result := .error "Dissect did not generate any output", calls := calls }
            else
              { result := .ok
                  { outputFiles := files, queryName := queryName,
                    argumentTokens := tokens,
                    command := quoteCommand (queryName :: tokens),
                    metaEntries := meta },
                calls := calls }

/-! ### Concrete collaborators and runs used by witnesses and counterexamples -/

/-- An input entry as in the repository's own tests. -/
def diskEntry : InputEntry := { path := "/cases/disk.E01", displayName := "disk.E01" }

/-- A query-task environment whose tool always succeeds. -/
def okQueryEnv : QueryEnv :=
  { invoke := fun _ => (0, "info", ""), shlexSplit := fun s => .ok [s] }

/-- A bundle environment where every plugin is available and every tool
succeeds. -/
def okBundleEnv : BundleEnv :=
  { avail := fun _ => true, invoke := fun _ => (0, "records", ""),
    defaultWriter := none, materialize := fun p => p,
    tmpRuleName := "/tmp/openrelik-rule.yar" }

/-- A bundle configuration selecting the single MFT-timeline preset. -/
def mftCfg : BundleConfig := { bundleScopes := some (.coll [.str "MFT timeline"]) }

def c1QueryRes : QueryRunResult :=
  ((runQuery okQueryEnv { query := "target-info" } [diskEntry] "/out").result).toOption.get!

def c1BundleRes : BundleRunResult :=
  ((runBundle okBundleEnv mftCfg [diskEntry] "/out").result).toOption.get!

/-- The failure message raised for a failing primary invocation (lines
697-705): the trimmed diagnostic text, or the synthesized fallback. -/
def primaryFailureMsg (env : BundleEnv) (preset : Preset) (preparedPath dN : String) :
    String :=
  if pyStrip (env.invoke (presetPrimaryCall preset preparedPath)).2.2 ≠ "" then
    pyStrip (env.invoke (presetPrimaryCall preset preparedPath)).2.2
  else "bundle preset '" ++ preset.name ++ "' failed for " ++ dN

/-- The failure message raised for a failing transform invocation (lines
735-746): the trimmed diagnostic text, or the synthesized fallback — which
names only the preset. -/
def rdumpFailureMsg (env : BundleEnv) (preset : Preset) (preparedPath : String)
    (rArgs : List String) : String :=
  if pyStrip (env.invoke (rdumpCallOf rArgs (primaryStdoutOf env preset preparedPath))).2.2
      ≠ "" then
    pyStrip (env.invoke (rdumpCallOf rArgs (primaryStdoutOf env preset preparedPath))).2.2
  else "rdump failed for preset '" ++ preset.name ++ "'"

/-- The failure message raised by `_run_query` (lines 245-247). -/
def queryFailureMsg (env : QueryEnv) (queryName : String) (tokens : List String)
    (e : InputEntry) : String :=
  if pyStrip (env.invoke (queryCallOf queryName tokens e.path)).2.2 ≠ "" then
    pyStrip (env.invoke (queryCallOf queryName tokens e.path)).2.2
  else
    "Dissect tool '" ++ queryName ++ "' failed for "
      ++ (if e.displayName ≠ "" then e.displayName else pathName e.path)
      ++ " with exit code "
      ++ toString (env.invoke (queryCallOf queryName tokens e.path)).1

/-- The MFT-timeline catalog preset, used by concrete runs below. -/
def mftPreset : Preset :=
  { name := "Generate a MFT Timeline", arguments := ["-f", "mft.records"],
    outputSuffix := "mft_timeline", categories := [CATEGORY_MFT_TIMELINE] }

/-- A bundle environment whose primary tool fails with diagnostic "boom". -/
def boomBundleEnv : BundleEnv :=
  { okBundleEnv with
    invoke := fun c => if c.script = "rdump" then (0, "", "") else (1, "", "boom") }

/-- A bundle environment where `rdump` fails with empty diagnostics. -/
def rdumpFailEnv : BundleEnv :=
  { okBundleEnv with
    invoke := fun c => if c.script = "rdump" then (1, "", "") else (0, "records", "") }

/-- The MFT-preset configuration with inline Yara rule text supplied. -/
def c4Cfg : BundleConfig :=
  { bundleScopes := some (.coll [.str "MFT timeline"]), yaraRule := "rule sample" }

def c4BundleRes : BundleRunResult :=
  ((runBundle okBundleEnv c4Cfg [diskEntry] "/out").result).toOption.get!

/-- Export explicitly enabled with no URI configured anywhere. -/
def c5Cfg : BundleConfig :=
  { bundleScopes := some (.coll [.str "MFT timeline"]), enableRecordWriter := some true }

/-- The user-information scope (one `target-query` preset and one
`target-reg` preset) with an explicit writer URI. -/
def c10Cfg : BundleConfig :=
  { bundleScopes := some (.coll [.str "User information"]),
    elasticWriter := "elastic+http://elastic:9200?index=dissect-records" }

def c10Ev : ExportEvent :=
  ((runBundle okBundleEnv c10Cfg [diskEntry] "/out").exports).getD 0
    { recordBytes := "", writerUri := "", queryName := "", displayName := "",
      caseName := none }

/-! ### Lemmas about the scope-normalisation folds -/

theorem mem_addScope (acc : List String) (part x : String) (h : x ∈ acc) :
    x ∈ addScope acc part := by
  unfold addScope
  split
  · exact h
  · dsimp only
    split
    · exact h
    · exact List.mem_append_left _ h

theorem mem_foldl_addScope (parts : List String) (acc : List String) (x : String)
    (h : x ∈ acc) : x ∈ parts.foldl addScope acc := by
  induction parts generalizing acc with
  | nil => exact h
  | cons p ps ih => exact ih _ (mem_addScope _ _ _ h)

theorem normaliseScope_mem_addScope (acc : List String) (p : String) (hp : p ≠ "") :
    normaliseScope (some p) ∈ addScope acc p := by
  unfold addScope
  rw [if_neg hp]
  by_cases hv : normaliseScope (some p) ∈ acc
  · simp [hv]
  · simp [hv]

theorem normaliseScope_mem_foldl (parts : List String) (acc : List String) (p : String)
    (hp : p ∈ parts) (hne : p ≠ "") :
    normaliseScope (some p) ∈ parts.foldl addScope acc := by
  induction parts generalizing acc with
  | nil => cases hp
  | cons q qs ih =>
    cases hp with
    | head => exact mem_foldl_addScope qs _ _ (normaliseScope_mem_addScope acc p hne)
    | tail _ h => exact ih _ h

theorem mem_collect_mono (items : List RawItem) (acc : List String) (x : String)
    (h : x ∈ acc) :
    x ∈ items.foldl (fun a item => (scopeParts item).foldl addScope a) acc := by
  induction items generalizing acc with
  | nil => exact h
  | cons i is ih => exact ih _ (mem_foldl_addScope _ _ _ h)

theorem normaliseScope_mem_collect_aux (items : List RawItem) (acc : List String)
    (i : RawItem) (p : String) (hi : i ∈ items) (hp : p ∈ scopeParts i) (hne : p ≠ "") :
    normaliseScope (some p)
      ∈ items.foldl (fun a item => (scopeParts item).foldl addScope a) acc := by
  induction items generalizing acc with
  | nil => cases hi
  | cons j js ih =>
    cases hi with
    | head =>
      exact mem_collect_mono js _ _ (normaliseScope_mem_foldl _ _ _ hp hne)
    | tail _ h =>
      exact ih _ h

theorem normaliseScope_mem_collectScopes (items : List RawItem) (i : RawItem)
    (p : String) (hi : i ∈ items) (hp : p ∈ scopeParts i) (hne : p ≠ "") :
    normaliseScope (some p) ∈ collectScopes items :=
  normaliseScope_mem_collect_aux items [] i p hi hp hne

theorem finaliseScopes_everything (l : List String) (h : CATEGORY_EVERYTHING ∈ l) :
    finaliseScopes l = [CATEGORY_EVERYTHING] := by
  unfold finaliseScopes
  rw [if_neg (List.ne_nil_of_mem h), if_pos h]

/-- C8: for every scope input in which some item (or comma-delimited part of
an item) resolves to the "everything" category — by canonical id, display
label, alias, or any other resolution — mixed with any other values in any
order, normalisation yields exactly `[everything]`. -/
theorem c8_everything_collapse (raw : RawScopes) (d : Bool)
    (h : ∃ i ∈ rawItems raw, ∃ p ∈ scopeParts i,
         p ≠ "" ∧ normaliseScope (some p) = CATEGORY_EVERYTHING) :
    normaliseScopes raw d = [CATEGORY_EVERYTHING] := by
  obtain ⟨i, hi, p, hp, hne, hev⟩ := h
  have hmem : CATEGORY_EVERYTHING ∈ collectScopes (rawItems raw) :=
    hev ▸ normaliseScope_mem_collectScopes _ i p hi hp hne
  cases raw with
  | pynone => cases hi
  | single j => exact finaliseScopes_everything _ hmem
  | coll items =>
    have hlen : ¬ items.length = 0 := by
      cases items with
      | nil => cases hi
      | cons a as => simp
    show (if items.length = 0 then [] else finaliseScopes (collectScopes items))
        = [CATEGORY_EVERYTHING]
    rw [if_neg hlen]
    exact finaliseScopes_everything _ hmem

/-- C8 witness: the "everything" display label mixed after an alias for
another category still collapses the whole selection to `[everything]`. -/
theorem c8_everything_collapse_witness :
    normaliseScopes (.coll [.str "usb", .str "Everything", .str "mft"]) false
      = [CATEGORY_EVERYTHING] :=
  c8_everything_collapse _ false (by decide)

/-- C6: the scope normaliser maps the display label of every category (also
case-insensitively) and the canonical identifier of every category except
`user_information` to that category — but the canonical identifier
`"user_information"` itself, matched by no alias branch and by no label,
falls through to the `everything` fallback, contradicting the claim. -/
theorem c6_user_information_fallback_bug :
    normaliseScope (some CATEGORY_USER_INFORMATION) = CATEGORY_EVERYTHING ∧
    CATEGORY_USER_INFORMATION ≠ CATEGORY_EVERYTHING ∧
    normaliseScope (some "User information") = CATEGORY_USER_INFORMATION ∧
    normaliseScope (some "USER INFORMATION") = CATEGORY_USER_INFORMATION ∧
    (∀ c ∈ SCOPE_ORDER, c ≠ CATEGORY_USER_INFORMATION → normaliseScope (some c) = c) := by
  decide

/-- C9 counterexample: a newline-separated string of two category labels is
not split — it is matched as one (unmatched) item and yields the
"everything" fallback, not the two categories. -/
theorem c9_newline_counterexample :
    normaliseScopes (.single (.str "All event logs\nBrowser activity")) true
      = [CATEGORY_EVERYTHING] ∧
    ¬ normaliseScopes (.single (.str "All event logs\nBrowser activity")) true
      = [CATEGORY_ALL_EVENT_LOGS, CATEGORY_BROWSER_ACTIVITY] := by
  decide

/-- C9 (amended): scope strings are delimited by commas only: a
comma-separated string of two labels is split and each part matched
individually, while a newline-separated string stays one item (and, being
unmatched, resolves to the everything fallback).  In general every non-empty
delimited part of every item contributes its resolved category to the
accumulated normalisation result. -/
theorem c9_delimiter_amended :
    scopeParts (.str "All event logs,Browser activity")
      = ["All event logs", "Browser activity"] ∧
    scopeParts (.str "All event logs\nBrowser activity")
      = ["All event logs\nBrowser activity"] ∧
    normaliseScopes (.single (.str "All event logs,Browser activity")) true
      = [CATEGORY_ALL_EVENT_LOGS, CATEGORY_BROWSER_ACTIVITY] ∧
    ∀ items : List RawItem, ∀ i ∈ items, ∀ p ∈ scopeParts i, p ≠ "" →
      normaliseScope (some p) ∈ collectScopes items := by
  refine ⟨by decide, by decide, by decide, ?_⟩
  intro items i hi p hp hne
  exact normaliseScope_mem_collectScopes items i p hi hp hne

/-- C9 amended-claim witness: the first label of a comma-separated pair
contributes its category to the accumulated result. -/
theorem c9_delimiter_amended_witness :
    CATEGORY_ALL_EVENT_LOGS
      ∈ collectScopes [.str "All event logs,Browser activity"] := by
  have h := c9_delimiter_amended.2.2.2
    [.str "All event logs,Browser activity"]
    (.str "All event logs,Browser activity") (by decide)
    "All event logs" (by decide) (by decide)
  have heq : normaliseScope (some "All event logs") = CATEGORY_ALL_EVENT_LOGS := by decide
  rwa [heq] at h

/-! ### Lemmas about preset selection -/

theorem dedupAppendPresets_cons (acc : List (Nat × Preset)) (x : Nat × Preset)
    (xs : List (Nat × Preset)) :
    dedupAppendPresets acc (x :: xs)
      = dedupAppendPresets (if acc.any (fun y => y.1 == x.1) then acc else acc ++ [x]) xs :=
  rfl

theorem dedupAppendPresets_nodup (xs : List (Nat × Preset)) :
    ∀ acc : List (Nat × Preset), (acc.map Prod.fst).Nodup →
      ((dedupAppendPresets acc xs).map Prod.fst).Nodup := by
  induction xs with
  | nil => intro acc h; exact h
  | cons x xs ih =>
    intro acc h
    rw [dedupAppendPresets_cons]
    by_cases hc : acc.any (fun y => y.1 == x.1) = true
    · rw [if_pos hc]; exact ih acc h
    · rw [if_neg hc]
      apply ih
      rw [List.map_append, List.nodup_append]
      refine ⟨h, List.nodup_singleton _, ?_⟩
      intro a ha hb
      rw [List.mem_map] at ha
      obtain ⟨y, hy, rfl⟩ := ha
      simp only [List.map_cons, List.map_nil, List.mem_singleton] at hb
      apply hc
      rw [List.any_eq_true]
      exact ⟨y, hy, by rw [beq_iff_eq]; exact hb⟩

theorem fst_mem_dedup_mono (xs : List (Nat × Preset)) :
    ∀ (acc : List (Nat × Preset)) (a : Nat), a ∈ acc.map Prod.fst →
      a ∈ (dedupAppendPresets acc xs).map Prod.fst := by
  induction xs with
  | nil => intro acc a h; exact h
  | cons x xs ih =>
    intro acc a h
    rw [dedupAppendPresets_cons]
    by_cases hc : acc.any (fun y => y.1 == x.1) = true
    · rw [if_pos hc]; exact ih _ _ h
    · rw [if_neg hc]
      exact ih _ _ (by rw [List.map_append]; exact List.mem_append_left _ h)

theorem fst_mem_dedupAppendPresets (xs : List (Nat × Preset)) :
    ∀ (acc : List (Nat × Preset)) (x : Nat × Preset), x ∈ xs →
      x.1 ∈ (dedupAppendPresets acc xs).map Prod.fst := by
  induction xs with
  | nil => intro _ _ h; cases h
  | cons y ys ih =>
    intro acc x hx
    rw [dedupAppendPresets_cons]
    cases hx with
    | head =>
      by_cases hc : acc.any (fun z => z.1 == y.1) = true
      · rw [if_pos hc]
        rw [List.any_eq_true] at hc
        obtain ⟨z, hz, hzy⟩ := hc
        rw [beq_iff_eq] at hzy
        exact fst_mem_dedup_mono ys acc y.1 (hzy ▸ List.mem_map_of_mem Prod.fst hz)
      · rw [if_neg hc]
        refine fst_mem_dedup_mono ys _ y.1 ?_
        rw [List.map_append]
        exact List.mem_append_right _ (by simp)
    | tail _ h =>
      by_cases hc : acc.any (fun z => z.1 == y.1) = true
      · rw [if_pos hc]; exact ih _ x h
      · rw [if_neg hc]; exact ih _ x h

theorem dedupAppendPresets_eq_append (xs : List (Nat × Preset)) :
    ∀ acc : List (Nat × Preset), ((acc ++ xs).map Prod.fst).Nodup →
      dedupAppendPresets acc xs = acc ++ xs := by
  induction xs with
  | nil => intro acc h; simp [dedupAppendPresets]
  | cons x xs ih =>
    intro acc h
    rw [dedupAppendPresets_cons]
    have hx : ¬ acc.any (fun y => y.1 == x.1) = true := by
      intro hc
      rw [List.any_eq_true] at hc
      obtain ⟨y, hy, hyx⟩ := hc
      rw [beq_iff_eq] at hyx
      rw [List.map_append, List.nodup_append] at h
      exact h.2.2 (List.mem_map_of_mem Prod.fst hy)
        (by rw [hyx]; simp)
    rw [if_neg hx]
    have h' := ih (acc ++ [x]) (by simpa [List.append_assoc] using h)
    simpa [List.append_assoc] using h'

theorem catalogIndexed_map_fst :
    catalogIndexed.map Prod.fst = List.range TARGET_QUERY_BUNDLE.length :=
  List.enum_map_fst _

theorem catalogIndexed_fst_pairwise :
    List.Pairwise (fun a b => a < b) (catalogIndexed.map Prod.fst) := by
  rw [catalogIndexed_map_fst]
  exact List.pairwise_lt_range _

theorem resolvePresetsForScope_sublist (s : String) :
    (resolvePresetsForScope s).Sublist catalogIndexed := by
  unfold resolvePresetsForScope
  split
  · exact List.Sublist.refl _
  · exact List.filter_sublist _

theorem resolvePresets_fst_pairwise (s : String) :
    List.Pairwise (fun a b => a < b) ((resolvePresetsForScope s).map Prod.fst) :=
  List.Pairwise.sublist (List.Sublist.map Prod.fst (resolvePresetsForScope_sublist s))
    catalogIndexed_fst_pairwise

theorem selection_foldl_nodup (ss : List String) :
    ∀ acc : List (Nat × Preset), (acc.map Prod.fst).Nodup →
      (((ss.foldl (fun acc scope => dedupAppendPresets acc (resolvePresetsForScope scope))
          acc)).map Prod.fst).Nodup := by
  induction ss with
  | nil => intro acc h; exact h
  | cons s ss ih => intro acc h; exact ih _ (dedupAppendPresets_nodup _ _ h)

theorem selection_foldl_mono (ss : List String) :
    ∀ (acc : List (Nat × Preset)) (a : Nat), a ∈ acc.map Prod.fst →
      a ∈ ((ss.foldl (fun acc scope => dedupAppendPresets acc (resolvePresetsForScope scope))
          acc)).map Prod.fst := by
  induction ss with
  | nil => intro acc a h; exact h
  | cons s ss ih => intro acc a h; exact ih _ _ (fst_mem_dedup_mono _ _ _ h)

theorem selection_foldl_complete (ss : List String) :
    ∀ (acc : List (Nat × Preset)) (t : String) (x : Nat × Preset),
      t ∈ ss → x ∈ resolvePresetsForScope t →
      x.1 ∈ ((ss.foldl (fun acc scope => dedupAppendPresets acc (resolvePresetsForScope scope))
          acc)).map Prod.fst := by
  induction ss with
  | nil => intro _ _ _ ht _; cases ht
  | cons u us ih =>
    intro acc t x ht hxt
    cases ht with
    | head =>
      exact selection_foldl_mono us _ _ (fst_mem_dedupAppendPresets _ _ _ hxt)
    | tail _ h =>
      exact ih _ t x h hxt

/-- C7 (amended): the selected preset list never repeats a catalog preset (a
preset tagged with two requested overlapping categories appears once); a
selection containing the `everything` wildcard is the whole catalog in
declaration order; for a single requested category the relative order of the
selected presets equals their relative order in the catalog; and every
preset matching a requested category is selected.  (Across several distinct
categories the list is ordered category-major — by which requested category
first selects a preset — so catalog relative order between presets of
different categories is not preserved; see the counterexample.) -/
theorem c7_selection_amended :
    (∀ scopes : List String, ((selectedPresets scopes).map Prod.fst).Nodup) ∧
    (∀ scopes : List String, CATEGORY_EVERYTHING ∈ scopes →
      selectedPresets scopes = catalogIndexed) ∧
    (∀ s : String,
      List.Pairwise (fun a b => a < b) ((selectedPresets [s]).map Prod.fst)) ∧
    (∀ scopes : List String, ∀ s ∈ scopes, ∀ x ∈ resolvePresetsForScope s,
      x.1 ∈ (selectedPresets scopes).map Prod.fst) := by
  refine ⟨?_, ?_, ?_, ?_⟩
  · intro scopes
    unfold selectedPresets
    split
    · exact catalogIndexed_fst_pairwise.imp fun h => Nat.ne_of_lt h
    · exact selection_foldl_nodup scopes [] (by simp)
  · intro scopes h
    unfold selectedPresets
    rw [if_pos h]
  · intro s
    unfold selectedPresets
    split
    · exact catalogIndexed_fst_pairwise
    · show List.Pairwise _ ((dedupAppendPresets [] (resolvePresetsForScope s)).map Prod.fst)
      rw [dedupAppendPresets_eq_append _ []
        (by
          simp only [List.nil_append]
          exact (resolvePresets_fst_pairwise s).imp fun h => Nat.ne_of_lt h)]
      simpa using resolvePresets_fst_pairwise s
  · intro scopes s hs x hx
    unfold selectedPresets
    split
    · exact List.mem_map_of_mem Prod.fst ((resolvePresetsForScope_sublist s).subset hx)
    · exact selection_foldl_complete scopes [] s x hs hx

/-- C7 amended-claim witness: the `everything` wildcard selects the whole
catalog in declaration order, and the "All event logs" preset (catalog
index 2) is selected when its category is requested together with another. -/
theorem c7_selection_amended_witness :
    selectedPresets [CATEGORY_EVERYTHING] = catalogIndexed ∧
    (2 : Nat) ∈ (selectedPresets
      [CATEGORY_ALL_EVENT_LOGS, CATEGORY_USER_INFORMATION]).map Prod.fst := by
  constructor
  · exact c7_selection_amended.2.1 [CATEGORY_EVERYTHING] (by decide)
  · exact c7_selection_amended.2.2.2
      [CATEGORY_ALL_EVENT_LOGS, CATEGORY_USER_INFORMATION]
      CATEGORY_ALL_EVENT_LOGS (by decide)
      ((2 : Nat), { name := "All event logs", arguments := ["-f", "evtx"],
                    outputSuffix := "evtx", categories := [CATEGORY_ALL_EVENT_LOGS] })
      (by decide)

/-- C7 counterexample: requesting `["All event logs", "User information"]`
(in that order) selects catalog indices `[2, 0, 1]`: the "All event logs"
preset (catalog index 2) precedes "Local users (target-query)" (catalog
index 0), reversing their catalog declaration order, so the relative order
of the resolved list does not always equal catalog order. -/
theorem c7_order_counterexample :
    normaliseScopes (.coll [.str "All event logs", .str "User information"]) false
      = [CATEGORY_ALL_EVENT_LOGS, CATEGORY_USER_INFORMATION] ∧
    (selectedPresets [CATEGORY_ALL_EVENT_LOGS, CATEGORY_USER_INFORMATION]).map Prod.fst
      = [2, 0, 1] ∧
    ¬ List.Pairwise (fun a b => a < b)
      ((selectedPresets [CATEGORY_ALL_EVENT_LOGS, CATEGORY_USER_INFORMATION]).map
        Prod.fst) := by
  refine ⟨by decide, by decide, ?_⟩
  intro h
  rw [show (selectedPresets [CATEGORY_ALL_EVENT_LOGS, CATEGORY_USER_INFORMATION]).map
      Prod.fst = [2, 0, 1] from by decide] at h
  cases h with
  | cons h2 _ => exact absurd (h2 0 (by decide)) (by decide)

/-! ### C2: stream/argv restoration of the invocation harness -/

/-- C2 counterexample: on the normal-return exit path with no stdin data,
`invoke_console_script` leaves `sys.stdin` set to `sys.__stdin__` (here
stream 0), not to the pre-call stdin (stream 5), so the process state is not
restored to its original (pre-call) state. -/
theorem c2_stdin_not_restored_counterexample :
    (invokeConsoleScript { argv := ["worker"], stdin := 5, stdout := 1, stderr := 2 }
        0 "target-query" ["/cases/disk.E01"] true false 7 8 9 (.ret .pynone)).finalState
      ≠ { argv := ["worker"], stdin := 5, stdout := 1, stderr := 2 } := by
  decide

/-- C2 (amended): on every exit path — normal return, a `SystemExit`-style
early termination, any other exception, and also failed entry-point
resolution — the argument vector, standard output and standard error are
restored to their pre-call values; standard input however is reset to the
interpreter's original `sys.__stdin__` (when resolution succeeded), so the
full pre-call state is restored exactly when the pre-call standard input
was the interpreter's original one. -/
theorem c2_state_restoration_amended (st : SysState) (dunderStdin : Nat)
    (script : String) (args : List String) (scriptFound stdinSupplied : Bool)
    (captureOut captureErr stdinWrap : Nat) (beh : FnBehavior) :
    ((invokeConsoleScript st dunderStdin script args scriptFound stdinSupplied
        captureOut captureErr stdinWrap beh).finalState).argv = st.argv ∧
    ((invokeConsoleScript st dunderStdin script args scriptFound stdinSupplied
        captureOut captureErr stdinWrap beh).finalState).stdout = st.stdout ∧
    ((invokeConsoleScript st dunderStdin script args scriptFound stdinSupplied
        captureOut captureErr stdinWrap beh).finalState).stderr = st.stderr ∧
    (scriptFound = true →
      ((invokeConsoleScript st dunderStdin script args scriptFound stdinSupplied
          captureOut captureErr stdinWrap beh).finalState).stdin = dunderStdin) ∧
    (st.stdin = dunderStdin →
      (invokeConsoleScript st dunderStdin script args scriptFound stdinSupplied
          captureOut captureErr stdinWrap beh).finalState = st) := by
  cases st with
  | mk argv sin sout serr =>
    cases scriptFound <;> cases stdinSupplied <;> cases beh <;>
      simp_all [invokeConsoleScript]

/-- C2 amended-claim witness: a `SystemExit`-style termination of a run whose
pre-call stdin is the interpreter's original one restores the full state. -/
theorem c2_state_restoration_amended_witness :
    ((invokeConsoleScript { argv := ["worker"], stdin := 0, stdout := 1, stderr := 2 }
        0 "rdump" ["-C"] true true 7 8 9 (.sysExit (.int 3))).finalState).argv
      = ["worker"] ∧
    ((invokeConsoleScript { argv := ["worker"], stdin := 0, stdout := 1, stderr := 2 }
        0 "rdump" ["-C"] true true 7 8 9 (.sysExit (.int 3))).finalState).stdin = 0 ∧
    (invokeConsoleScript { argv := ["worker"], stdin := 0, stdout := 1, stderr := 2 }
        0 "rdump" ["-C"] true true 7 8 9 (.sysExit (.int 3))).finalState
      = { argv := ["worker"], stdin := 0, stdout := 1, stderr := 2 } := by
  have h := c2_state_restoration_amended
    { argv := ["worker"], stdin := 0, stdout := 1, stderr := 2 }
    0 "rdump" ["-C"] true true 7 8 9 (.sysExit (.int 3))
  exact ⟨h.1, h.2.2.2.1 rfl, h.2.2.2.2 rfl⟩

/-! ### C1: no success result with zero produced artifacts -/

theorem runQuery_ok_nonempty (qenv : QueryEnv) (qcfg : QueryConfig)
    (qin : List InputEntry) (qout : String) (r : QueryRunResult)
    (h : (runQuery qenv qcfg qin qout).result = .ok r) : r.outputFiles ≠ [] := by
  unfold runQuery at h
  repeat' split at h
  all_goals dsimp only at h
  all_goals try split_ifs at h
  all_goals repeat' split at h
  all_goals simp_all
  all_goals try cases h
  all_goals simp_all

set_option maxHeartbeats 1000000 in
theorem runBundle_ok_nonempty (benv : BundleEnv) (bcfg : BundleConfig)
    (bin : List InputEntry) (bout : String) (r : BundleRunResult)
    (h : (runBundle benv bcfg bin bout).result = .ok r) : r.outputFiles ≠ [] := by
  unfold runBundle at h
  repeat' split at h
  all_goals dsimp only [errOutcome] at h
  all_goals try split_ifs at h
  all_goals simp_all
  all_goals try cases h
  all_goals simp_all

/-- C1: neither task ever returns a success result whose produced-artifact
list is empty: whenever `_run_query` or `_run_bundle` returns (rather than
raising), the returned output-file list is non-empty — an empty list at the
end of the loop raises instead. -/
theorem c1_no_empty_success (qenv : QueryEnv) (qcfg : QueryConfig)
    (qin : List InputEntry) (qout : String) (benv : BundleEnv) (bcfg : BundleConfig)
    (bin : List InputEntry) (bout : String) :
    (∀ r : QueryRunResult, (runQuery qenv qcfg qin qout).result = .ok r →
      r.outputFiles ≠ []) ∧
    (∀ r : BundleRunResult, (runBundle benv bcfg bin bout).result = .ok r →
      r.outputFiles ≠ []) :=
  ⟨fun r h => runQuery_ok_nonempty qenv qcfg qin qout r h,
   fun r h => runBundle_ok_nonempty benv bcfg bin bout r h⟩

/-- C1 witness: a concrete successful run of each task has a non-empty
output list. -/
theorem c1_no_empty_success_witness :
    ((runQuery okQueryEnv { query := "target-info" } [diskEntry] "/out").result
      = .ok c1QueryRes ∧ c1QueryRes.outputFiles ≠ []) ∧
    ((runBundle okBundleEnv mftCfg [diskEntry] "/out").result
      = .ok c1BundleRes ∧ c1BundleRes.outputFiles ≠ []) := by
  refine ⟨⟨rfl, ?_⟩, ⟨rfl, ?_⟩⟩
  · exact (c1_no_empty_success okQueryEnv { query := "target-info" } [diskEntry] "/out"
      okBundleEnv mftCfg [diskEntry] "/out").1 c1QueryRes rfl
  · exact (c1_no_empty_success okQueryEnv { query := "target-info" } [diskEntry] "/out"
      okBundleEnv mftCfg [diskEntry] "/out").2 c1BundleRes rfl

/-! ### Lemmas about the bundle loop body -/

theorem exportEventOf_record_isSome (wE : Bool) (wU : Option String) (cN : Option String)
    (dN cmd : String) (out : PyData) :
    (exportEventOf wE wU cN dN cmd (recordBytesOf wE wU cmd out)).isSome
      = (wE && pyTruthyOpt wU && (cmd == "target-query")) := by
  unfold exportEventOf recordBytesOf pyTruthyOpt
  cases wU with
  | none => cases wE <;> simp
  | some u =>
    by_cases hu : u = ""
    · subst hu; cases wE <;> simp
    · cases wE <;> by_cases hc : cmd = "target-query" <;> simp [hu, hc]

theorem exportEventOf_record_queryName (wE : Bool) (wU : Option String) (cN : Option String)
    (dN cmd : String) (out : PyData) (ev : ExportEvent)
    (h : exportEventOf wE wU cN dN cmd (recordBytesOf wE wU cmd out) = some ev) :
    ev.queryName = "target-query" := by
  unfold exportEventOf recordBytesOf at h
  repeat' split at h
  all_goals simp_all
  all_goals cases h
  all_goals simp_all

theorem runPresetStep_primary_failure (env : BundleEnv) (wE : Bool) (wU : Option String)
    (cN : Option String) (dN bN pP : String) (preset : Preset) (plugin : Option String)
    (hx : (env.invoke (presetPrimaryCall preset pP)).1 ≠ 0) :
    runPresetStep env wE wU cN dN bN pP preset plugin =
      .error
        (if pyStrip (env.invoke (presetPrimaryCall preset pP)).2.2 ≠ "" then
           pyStrip (env.invoke (presetPrimaryCall preset pP)).2.2
         else "bundle preset '" ++ preset.name ++ "' failed for " ++ dN,
         [presetPrimaryCall preset pP]) := by
  unfold runPresetStep invokeScript
  dsimp only
  cases hd : preset.decodeStdout.getD (preset.command.getD "target-query" ≠ "target-query") <;>
    simp only [presetPrimaryCall, hd] at hx ⊢ <;>
    rw [if_pos hx] <;>
    simp [PyData.decoded]

theorem runPresetStep_rdump_failure (env : BundleEnv) (wE : Bool) (wU : Option String)
    (cN : Option String) (dN bN pP : String) (preset : Preset) (plugin : Option String)
    (rArgs : List String)
    (h0 : (env.invoke (presetPrimaryCall preset pP)).1 = 0)
    (hargs : presetRdumpArgs preset = some rArgs)
    (hx : (env.invoke (rdumpCallOf rArgs (primaryStdoutOf env preset pP))).1 ≠ 0) :
    runPresetStep env wE wU cN dN bN pP preset plugin =
      .error
        (if pyStrip (env.invoke (rdumpCallOf rArgs (primaryStdoutOf env preset pP))).2.2 ≠ "" then
           pyStrip (env.invoke (rdumpCallOf rArgs (primaryStdoutOf env preset pP))).2.2
         else "rdump failed for preset '" ++ preset.name ++ "'",
         [presetPrimaryCall preset pP, rdumpCallOf rArgs (primaryStdoutOf env preset pP)]) := by
  unfold runPresetStep invokeScript
  try dsimp only
  simp only [presetPrimaryCall] at h0
  rw [if_neg (not_not_intro h0)]
  try dsimp only
  rw [hargs]
  try dsimp only
  simp only [rdumpCallOf, primaryStdoutOf, presetPrimaryCall] at hx ⊢
  rw [if_pos hx]
  simp [PyData.decoded]

set_option maxHeartbeats 1000000 in
set_option maxRecDepth 4000 in
theorem runPresetStep_ok_spec (env : BundleEnv) (wE : Bool) (wU : Option String)
    (cN : Option String) (dN bN pP : String) (preset : Preset) (plugin : Option String)
    (st : StepOut)
    (h : runPresetStep env wE wU cN dN bN pP preset plugin = .ok st) :
    (∀ c ∈ st.calls, (env.invoke c).1 = 0) ∧
    (st.exportEvent.isSome = (wE && pyTruthyOpt wU &&
       (preset.command.getD "target-query" == "target-query"))) ∧
    (∀ ev, st.exportEvent = some ev → ev.queryName = "target-query") := by
  unfold runPresetStep invokeScript at h
  dsimp only at h
  repeat' split at h
  all_goals try exact Except.noConfusion h
  all_goals cases h
  all_goals refine ⟨?_, exportEventOf_record_isSome _ _ _ _ _ _,
    fun ev hev => exportEventOf_record_queryName _ _ _ _ _ _ ev hev⟩
  all_goals intro c hc
  all_goals simp only [List.mem_cons, List.mem_singleton, List.not_mem_nil, or_false] at hc
  all_goals try (rcases hc with rfl | rfl)
  all_goals first
    | assumption
    | exact not_not.mp (by assumption)
    | (by_contra hne
       simp_all only [ne_eq, not_false_eq_true, Bool.false_eq_true, if_true, if_false,
         if_pos hne]
       contradiction)

/-! ### Loop invariants of the bundle orchestrator -/

theorem runPresetsForEntry_export_inv (P : ExportEvent → Prop) (env : BundleEnv)
    (wE : Bool) (wU : Option String) (cN : Option String) (dN bN pP : String)
    (hstep : ∀ preset plugin st,
      runPresetStep env wE wU cN dN bN pP preset plugin = .ok st →
      ∀ ev, st.exportEvent = some ev → P ev) :
    ∀ (presets : List (Preset × Option String)) (tr : BundleTrace),
      (∀ e ∈ tr.exports, P e) →
      (∀ tr2, runPresetsForEntry env wE wU cN dN bN pP presets tr = .ok tr2 →
        ∀ e ∈ tr2.exports, P e) ∧
      (∀ msg tr2, runPresetsForEntry env wE wU cN dN bN pP presets tr = .error (msg, tr2) →
        ∀ e ∈ tr2.exports, P e) := by
  intro presets
  induction presets with
  | nil =>
    intro tr hinv
    constructor
    · intro tr2 h
      cases h
      exact hinv
    · intro msg tr2 h
      cases h
  | cons pp rest ih =>
    intro tr hinv
    have hnext : ∀ st, runPresetStep env wE wU cN dN bN pP pp.1 pp.2 = .ok st →
        ∀ e ∈ tr.exports ++ st.exportEvent.toList, P e := by
      intro st hst e he
      rcases List.mem_append.mp he with he | he
      · exact hinv e he
      · exact hstep pp.1 pp.2 st hst e (Option.mem_toList.mp he)
    constructor
    · intro tr2 h
      unfold runPresetsForEntry at h
      split at h
      · cases h
      · rename_i st hst
        exact (ih _ (hnext st hst)).1 tr2 h
    · intro msg tr2 h
      unfold runPresetsForEntry at h
      split at h
      · cases h
        exact hinv
      · rename_i st hst
        exact (ih _ (hnext st hst)).2 msg tr2 h

theorem runEntries_export_inv (P : ExportEvent → Prop) (env : BundleEnv)
    (wE : Bool) (wU : Option String) (cN : Option String)
    (presets : List (Preset × Option String))
    (hstep : ∀ dN bN pP preset plugin st,
      runPresetStep env wE wU cN dN bN pP preset plugin = .ok st →
      ∀ ev, st.exportEvent = some ev → P ev) :
    ∀ (entries : List InputEntry) (tr : BundleTrace),
      (∀ e ∈ tr.exports, P e) →
      (∀ tr2, runEntries env wE wU cN presets entries tr = .ok tr2 →
        ∀ e ∈ tr2.exports, P e) ∧
      (∀ msg tr2, runEntries env wE wU cN presets entries tr = .error (msg, tr2) →
        ∀ e ∈ tr2.exports, P e) := by
  intro entries
  induction entries with
  | nil =>
    intro tr hinv
    constructor
    · intro tr2 h
      cases h
      exact hinv
    · intro msg tr2 h
      cases h
  | cons e rest ih =>
    intro tr hinv
    constructor
    · intro tr2 h
      unfold runEntries at h
      split at h
      · exact (ih tr hinv).1 tr2 h
      · dsimp only at h
        repeat' split at h
        all_goals first
          | exact Except.noConfusion h
          | exact (ih _ ((runPresetsForEntry_export_inv P env wE wU cN _ _ _
              (hstep _ _ _) presets tr hinv).1 _ (by assumption))).1 tr2 h
    · intro msg tr2 h
      unfold runEntries at h
      split at h
      · exact (ih tr hinv).2 msg tr2 h
      · dsimp only at h
        repeat' split at h
        all_goals first
          | (cases h
             exact (runPresetsForEntry_export_inv P env wE wU cN _ _ _
               (hstep _ _ _) presets tr hinv).2 _ _ (by assumption))
          | exact (ih _ ((runPresetsForEntry_export_inv P env wE wU cN _ _ _
              (hstep _ _ _) presets tr hinv).1 _ (by assumption))).2 msg tr2 h

theorem runPresetsForEntry_calls_ok (env : BundleEnv) (wE : Bool) (wU : Option String)
    (cN : Option String) (dN bN pP : String) :
    ∀ (presets : List (Preset × Option String)) (tr tr2 : BundleTrace),
      runPresetsForEntry env wE wU cN dN bN pP presets tr = .ok tr2 →
      (∀ c ∈ tr.calls, (env.invoke c).1 = 0) →
      ∀ c ∈ tr2.calls, (env.invoke c).1 = 0 := by
  intro presets
  induction presets with
  | nil =>
    intro tr tr2 h hinv
    cases h
    exact hinv
  | cons pp rest ih =>
    intro tr tr2 h hinv
    unfold runPresetsForEntry at h
    split at h
    · cases h
    · refine ih _ tr2 h ?_
      intro c hc
      rcases List.mem_append.mp hc with hc | hc
      · exact hinv c hc
      · exact (runPresetStep_ok_spec env wE wU cN dN bN pP pp.1 pp.2 _
          (by assumption)).1 c hc

theorem runEntries_calls_ok (env : BundleEnv) (wE : Bool) (wU : Option String)
    (cN : Option String) (presets : List (Preset × Option String)) :
    ∀ (entries : List InputEntry) (tr tr2 : BundleTrace),
      runEntries env wE wU cN presets entries tr = .ok tr2 →
      (∀ c ∈ tr.calls, (env.invoke c).1 = 0) →
      ∀ c ∈ tr2.calls, (env.invoke c).1 = 0 := by
  intro entries
  induction entries with
  | nil =>
    intro tr tr2 h hinv
    cases h
    exact hinv
  | cons e rest ih =>
    intro tr tr2 h hinv
    unfold runEntries at h
    split at h
    · exact ih tr tr2 h hinv
    · dsimp only at h
      repeat' split at h
      all_goals first
        | exact Except.noConfusion h
        | exact ih _ tr2 h
            (runPresetsForEntry_calls_ok env wE wU cN _ _ _ presets tr _
              (by assumption) hinv)

/-! ### The pre-loop setup -/

theorem prepareBundle_error_of_no_writer_uri (env : BundleEnv) (cfg : BundleConfig)
    (ins : List InputEntry) (out : String)
    (h1 : writerEnabledOf cfg = true)
    (h2 : pyTruthyOpt (writerUriOf env cfg) = false) :
    ∃ m, prepareBundle env cfg ins out = .error m := by
  have hcond : writerEnabledOf cfg = true
      ∧ ¬(pyTruthyOpt (writerUriOf env cfg) = true) := ⟨h1, by simp [h2]⟩
  unfold prepareBundle
  split_ifs
  all_goals exact ⟨_, rfl⟩

theorem runBundle_ok_all_exit_zero (env : BundleEnv) (cfg : BundleConfig)
    (ins : List InputEntry) (out : String) (r : BundleRunResult)
    (h : (runBundle env cfg ins out).result = .ok r) :
    ∀ c ∈ (runBundle env cfg ins out).calls, (env.invoke c).1 = 0 := by
  unfold runBundle at h ⊢
  cases hp : prepareBundle env cfg ins out with
  | error m =>
    simp only [hp] at h
    exact absurd h (by simp [errOutcome])
  | ok u =>
    simp only [hp] at h ⊢
    cases ht : runEntries env (writerEnabledOf cfg) (writerUriOf env cfg)
        (caseNameOf cfg) (availablePresetsOf env cfg) ins emptyTrace with
    | error e =>
      obtain ⟨msg, tr⟩ := e
      simp only [ht] at h
      exact absurd h (by simp)
    | ok tr =>
      simp only [ht] at h ⊢
      have hcalls : ∀ c ∈ tr.calls, (env.invoke c).1 = 0 :=
        runEntries_calls_ok env (writerEnabledOf cfg) (writerUriOf env cfg)
          (caseNameOf cfg) (availablePresetsOf env cfg) ins emptyTrace tr ht
          (by intro c hc; cases hc)
      split at h
      · exact absurd h (by simp)
      · rename_i hne
        rw [if_neg hne]
        exact hcalls

theorem runBundle_exports_queryName (env : BundleEnv) (cfg : BundleConfig)
    (ins : List InputEntry) (out : String) :
    ∀ e ∈ (runBundle env cfg ins out).exports, e.queryName = "target-query" := by
  unfold runBundle
  cases hp : prepareBundle env cfg ins out with
  | error m =>
    intro e he
    simp [errOutcome] at he
  | ok u =>
    dsimp only
    have hinv := runEntries_export_inv (fun e => e.queryName = "target-query") env
      (writerEnabledOf cfg) (writerUriOf env cfg) (caseNameOf cfg)
      (availablePresetsOf env cfg)
      (fun dN bN pP preset plugin st hst ev hev =>
        (runPresetStep_ok_spec env (writerEnabledOf cfg) (writerUriOf env cfg)
          (caseNameOf cfg) dN bN pP preset plugin st hst).2.2 ev hev)
      ins emptyTrace (by intro e he; cases he)
    cases ht : runEntries env (writerEnabledOf cfg) (writerUriOf env cfg)
        (caseNameOf cfg) (availablePresetsOf env cfg) ins emptyTrace with
    | error e =>
      obtain ⟨msg, tr⟩ := e
      dsimp only
      intro ev hev
      exact hinv.2 msg tr ht ev hev
    | ok tr =>
      dsimp only
      intro ev hev
      refine hinv.1 tr ht ev ?_
      split at hev
      · exact hev
      · exact hev

theorem runBundle_exports_empty_of_disabled (env : BundleEnv) (cfg : BundleConfig)
    (ins : List InputEntry) (out : String)
    (hdis : writerEnabledOf cfg = false) :
    (runBundle env cfg ins out).exports = [] := by
  unfold runBundle
  cases hp : prepareBundle env cfg ins out with
  | error m => simp [errOutcome]
  | ok u =>
    dsimp only
    have hinv := runEntries_export_inv (fun _ => False) env
      (writerEnabledOf cfg) (writerUriOf env cfg) (caseNameOf cfg)
      (availablePresetsOf env cfg)
      (fun dN bN pP preset plugin st hst ev hev => by
        have := (runPresetStep_ok_spec env (writerEnabledOf cfg) (writerUriOf env cfg)
          (caseNameOf cfg) dN bN pP preset plugin st hst).2.1
        rw [hev, hdis] at this
        simp at this)
      ins emptyTrace (by intro e he; cases he)
    cases ht : runEntries env (writerEnabledOf cfg) (writerUriOf env cfg)
        (caseNameOf cfg) (availablePresetsOf env cfg) ins emptyTrace with
    | error e =>
      obtain ⟨msg, tr⟩ := e
      have : ∀ ev ∈ tr.exports, False := hinv.2 msg tr ht
      have htr : tr.exports = [] := List.eq_nil_iff_forall_not_mem.mpr this
      simp [ht, htr]
    | ok tr =>
      have : ∀ ev ∈ tr.exports, False := hinv.1 tr ht
      have htr : tr.exports = [] := List.eq_nil_iff_forall_not_mem.mpr this
      simp only [ht]
      split <;> simp [htr]

/-! ### Substring-containment helpers -/

theorem charsIsPrefixOf_append (l t : List Char) : charsIsPrefixOf l (l ++ t) = true := by
  induction l with
  | nil => rfl
  | cons c cs ih => simp [charsIsPrefixOf, ih]

theorem charsIsPrefixOf_refl (l : List Char) : charsIsPrefixOf l l = true := by
  simpa using charsIsPrefixOf_append l []

theorem charsIsInfixOf_ofPrefix (n h : List Char) (hp : charsIsPrefixOf n h = true) :
    charsIsInfixOf n h = true := by
  cases h with
  | nil => simpa [charsIsInfixOf] using hp
  | cons b bs => simp [charsIsInfixOf, hp]

theorem charsIsInfixOf_append_left (x n t : List Char)
    (h : charsIsInfixOf n t = true) : charsIsInfixOf n (x ++ t) = true := by
  induction x with
  | nil => simpa using h
  | cons c cs ih => simp [charsIsInfixOf, ih]

theorem strContainsSub_refl (s : String) : strContainsSub s s = true :=
  charsIsInfixOf_ofPrefix _ _ (charsIsPrefixOf_refl _)

theorem strContainsSub_append_middle (a b c : String) :
    strContainsSub (a ++ b ++ c) b = true := by
  unfold strContainsSub
  rw [String.data_append, String.data_append, List.append_assoc]
  exact charsIsInfixOf_append_left _ _ _
    (charsIsInfixOf_ofPrefix _ _ (charsIsPrefixOf_append _ _))

theorem strContainsSub_append_right (a b : String) :
    strContainsSub (a ++ b) b = true := by
  have h := strContainsSub_append_middle a b ""
  unfold strContainsSub at h ⊢
  rw [String.data_append] at h ⊢
  rw [String.data_append] at h
  simpa using h

/-! ### Query-loop lemmas -/

theorem runQueryEntries_head_failure (env : QueryEnv) (queryName : String)
    (tokens : List String) (e : InputEntry) (rest : List InputEntry)
    (files : List OutputFile) (meta : List QueryMeta) (calls : List InvCall)
    (hp : ¬ e.path = "")
    (hx : (env.invoke (queryCallOf queryName tokens e.path)).1 ≠ 0) :
    runQueryEntries env queryName tokens (e :: rest) files meta calls =
      .error
        (if pyStrip (env.invoke (queryCallOf queryName tokens e.path)).2.2 ≠ "" then
           pyStrip (env.invoke (queryCallOf queryName tokens e.path)).2.2
         else
           "Dissect tool '" ++ queryName ++ "' failed for "
             ++ (if e.displayName ≠ "" then e.displayName else pathName e.path)
             ++ " with exit code "
             ++ toString (env.invoke (queryCallOf queryName tokens e.path)).1,
         calls ++ [queryCallOf queryName tokens e.path]) := by
  unfold runQueryEntries
  rw [if_neg hp]
  dsimp only
  rw [if_pos hx]

theorem runQueryEntries_ok_all_exit_zero (env : QueryEnv) (queryName : String)
    (tokens : List String) :
    ∀ (entries : List InputEntry) (files : List OutputFile) (meta : List QueryMeta)
      (calls : List InvCall) (f2 : List OutputFile) (m2 : List QueryMeta)
      (c2 : List InvCall),
      runQueryEntries env queryName tokens entries files meta calls = .ok (f2, m2, c2) →
      (∀ c ∈ calls, (env.invoke c).1 = 0) →
      ∀ c ∈ c2, (env.invoke c).1 = 0 := by
  intro entries
  induction entries with
  | nil =>
    intro files meta calls f2 m2 c2 h hinv
    cases h
    exact hinv
  | cons e rest ih =>
    intro files meta calls f2 m2 c2 h hinv
    unfold runQueryEntries at h
    split at h
    · exact ih _ _ _ _ _ _ h hinv
    · dsimp only at h
      split at h
      · exact Except.noConfusion h
      · refine ih _ _ _ _ _ _ h ?_
        intro c hc
        rcases List.mem_append.mp hc with hc | hc
        · exact hinv c hc
        · rw [List.mem_singleton] at hc
          subst hc
          exact not_not.mp (by assumption)

theorem runQuery_ok_all_exit_zero (env : QueryEnv) (cfg : QueryConfig)
    (ins : List InputEntry) (out : String) (r : QueryRunResult)
    (h : (runQuery env cfg ins out).result = .ok r) :
    ∀ c ∈ (runQuery env cfg ins out).calls, (env.invoke c).1 = 0 := by
  unfold runQuery at h ⊢
  dsimp only at h ⊢
  split_ifs at h ⊢ <;> try exact absurd h (by simp)
  all_goals
    cases hpar : parseArgumentString env.shlexSplit cfg.argumentsRaw with
    | error e => simp only [hpar] at h; exact absurd h (by simp)
    | ok tokens =>
      simp only [hpar] at h ⊢
      first
        | exact absurd h (by simp)
        | (cases ht : runQueryEntries env (pyStrip cfg.query) tokens ins [] [] [] with
           | error e =>
             obtain ⟨msg, cs⟩ := e
             simp only [ht] at h
             exact absurd h (by simp)
           | ok v =>
             obtain ⟨f2, m2, c2⟩ := v
             simp only [ht] at h ⊢
             split at h
             · exact absurd h (by simp)
             · rename_i hne
               rw [if_neg hne]
               exact runQueryEntries_ok_all_exit_zero env (pyStrip cfg.query) tokens
                 ins [] [] [] f2 m2 c2 ht (by intro c hc; cases hc))

theorem charsIsPrefixOf_nil (l : List Char) : charsIsPrefixOf [] l = true := by
  cases l <;> rfl

theorem charsIsInfixOf_nil_left (l : List Char) : charsIsInfixOf [] l = true := by
  induction l with
  | nil => rfl
  | cons c cs ih => simp [charsIsInfixOf, charsIsPrefixOf_nil]

theorem strContainsSub_empty_needle (s : String) : strContainsSub s "" = true := by
  unfold strContainsSub
  rw [show ("" : String).data = [] from rfl]
  exact charsIsInfixOf_nil_left s.data

theorem charsIsPrefixOf_extend (n : List Char) :
    ∀ (x z : List Char), charsIsPrefixOf n x = true → charsIsPrefixOf n (x ++ z) = true := by
  induction n with
  | nil => intro x z _; exact charsIsPrefixOf_nil _
  | cons c cs ih =>
    intro x z h
    cases x with
    | nil => simp [charsIsPrefixOf] at h
    | cons b bs =>
      simp only [charsIsPrefixOf, Bool.and_eq_true, decide_eq_true_eq] at h
      simpa only [List.cons_append, charsIsPrefixOf, Bool.and_eq_true,
        decide_eq_true_eq] using And.intro h.1 (ih bs z h.2)

theorem charsIsInfixOf_extend_right (n : List Char) :
    ∀ (x z : List Char), charsIsInfixOf n x = true → charsIsInfixOf n (x ++ z) = true := by
  intro x
  induction x with
  | nil =>
    intro z h
    have hn : n = [] := by
      cases n with
      | nil => rfl
      | cons c cs => simp [charsIsInfixOf, charsIsPrefixOf] at h
    subst hn
    simpa using charsIsInfixOf_nil_left z
  | cons b bs ih =>
    intro z h
    simp only [charsIsInfixOf, Bool.or_eq_true] at h
    rcases h with h | h
    · simp only [List.cons_append, charsIsInfixOf, Bool.or_eq_true]
      exact Or.inl (by
        simpa only [List.cons_append] using charsIsPrefixOf_extend n (b :: bs) z h)
    · simp only [List.cons_append, charsIsInfixOf, Bool.or_eq_true]
      exact Or.inr (ih z h)

theorem strContainsSub_extend_right (x z n : String) (h : strContainsSub x n = true) :
    strContainsSub (x ++ z) n = true := by
  unfold strContainsSub at h ⊢
  rw [String.data_append]
  exact charsIsInfixOf_extend_right n.data x.data z.data h

theorem primaryFailureMsg_contains (env : BundleEnv) (preset : Preset) (pP dN : String) :
    strContainsSub (primaryFailureMsg env preset pP dN)
      (pyStrip (env.invoke (presetPrimaryCall preset pP)).2.2) = true := by
  unfold primaryFailureMsg
  by_cases hne : pyStrip (env.invoke (presetPrimaryCall preset pP)).2.2 ≠ ""
  · rw [if_pos hne]
    exact strContainsSub_refl _
  · rw [if_neg hne, not_not.mp hne]
    exact strContainsSub_empty_needle _

theorem primaryFailureMsg_fallback_names (env : BundleEnv) (preset : Preset) (pP dN : String)
    (h : pyStrip (env.invoke (presetPrimaryCall preset pP)).2.2 = "") :
    strContainsSub (primaryFailureMsg env preset pP dN) preset.name = true ∧
    strContainsSub (primaryFailureMsg env preset pP dN) dN = true := by
  unfold primaryFailureMsg
  rw [if_neg (by simp [h])]
  constructor
  · exact strContainsSub_extend_right _ dN _
      (strContainsSub_append_middle "bundle preset '" preset.name "' failed for ")
  · exact strContainsSub_append_right _ dN

theorem rdumpFailureMsg_contains (env : BundleEnv) (preset : Preset) (pP : String)
    (rArgs : List String) :
    strContainsSub (rdumpFailureMsg env preset pP rArgs)
      (pyStrip (env.invoke (rdumpCallOf rArgs (primaryStdoutOf env preset pP))).2.2)
      = true := by
  unfold rdumpFailureMsg
  by_cases hne :
      pyStrip (env.invoke (rdumpCallOf rArgs (primaryStdoutOf env preset pP))).2.2 ≠ ""
  · rw [if_pos hne]
    exact strContainsSub_refl _
  · rw [if_neg hne, not_not.mp hne]
    exact strContainsSub_empty_needle _

theorem rdumpFailureMsg_fallback_names (env : BundleEnv) (preset : Preset) (pP : String)
    (rArgs : List String)
    (h : pyStrip (env.invoke (rdumpCallOf rArgs (primaryStdoutOf env preset pP))).2.2 = "") :
    strContainsSub (rdumpFailureMsg env preset pP rArgs) preset.name = true := by
  unfold rdumpFailureMsg
  rw [if_neg (by simp [h])]
  exact strContainsSub_append_middle "rdump failed for preset '" preset.name "'"

theorem queryFailureMsg_contains (env : QueryEnv) (q : String) (toks : List String)
    (e : InputEntry) :
    strContainsSub (queryFailureMsg env q toks e)
      (pyStrip (env.invoke (queryCallOf q toks e.path)).2.2) = true := by
  unfold queryFailureMsg
  by_cases hne : pyStrip (env.invoke (queryCallOf q toks e.path)).2.2 ≠ ""
  · rw [if_pos hne]
    exact strContainsSub_refl _
  · rw [if_neg hne, not_not.mp hne]
    exact strContainsSub_empty_needle _

theorem queryFailureMsg_fallback_names (env : QueryEnv) (q : String) (toks : List String)
    (e : InputEntry)
    (h : pyStrip (env.invoke (queryCallOf q toks e.path)).2.2 = "") :
    strContainsSub (queryFailureMsg env q toks e) q = true ∧
    strContainsSub (queryFailureMsg env q toks e)
      (if e.displayName ≠ "" then e.displayName else pathName e.path) = true := by
  unfold queryFailureMsg
  rw [if_neg (by simp [h])]
  constructor
  · exact strContainsSub_extend_right _ _ _
      (strContainsSub_extend_right _ _ _
        (strContainsSub_extend_right _ _ _
          (strContainsSub_append_middle "Dissect tool '" q "' failed for ")))
  · exact strContainsSub_extend_right _ _ _
      (strContainsSub_extend_right _ _ _
        (strContainsSub_append_right _ _))

/-- C3 counterexample: in a bundle run where `rdump` fails with empty
diagnostics, the raised message is the synthesized `rdump` fallback, which
does not contain the input's display name `disk.E01` — contradicting the
claim that the synthesized message names both the preset (or tool) and the
input's display name. -/
theorem c3_rdump_fallback_counterexample :
    (runBundle rdumpFailEnv mftCfg [diskEntry] "/out").result =
      .error "rdump failed for preset 'Generate a MFT Timeline'" ∧
    strContainsSub "rdump failed for preset 'Generate a MFT Timeline'" "disk.E01"
      = false ∧
    diskEntry.displayName = "disk.E01" := by
  exact ⟨rfl, by decide, rfl⟩

/-- C3 (amended): a non-zero exit code from the primary invocation, from the
transform (`rdump`) invocation, or from the query task's tool aborts the run
with an error whose message is the trimmed diagnostic text when non-empty;
otherwise it is a synthesized message that names the preset and the display
name for a primary failure, only the preset for an `rdump` failure, and the
tool and the display name for a query failure.  Abort is total: a completed
run saw only zero exit codes. -/
theorem c3_failfast_diagnostics_amended :
    (∀ (env : BundleEnv) (wE : Bool) (wU : Option String) (cN : Option String)
       (dN bN pP : String) (preset : Preset) (plugin : Option String),
       (env.invoke (presetPrimaryCall preset pP)).1 ≠ 0 →
       runPresetStep env wE wU cN dN bN pP preset plugin =
         .error (primaryFailureMsg env preset pP dN, [presetPrimaryCall preset pP]) ∧
       strContainsSub (primaryFailureMsg env preset pP dN)
         (pyStrip (env.invoke (presetPrimaryCall preset pP)).2.2) = true ∧
       (pyStrip (env.invoke (presetPrimaryCall preset pP)).2.2 = "" →
         strContainsSub (primaryFailureMsg env preset pP dN) preset.name = true ∧
         strContainsSub (primaryFailureMsg env preset pP dN) dN = true)) ∧
    (∀ (env : BundleEnv) (wE : Bool) (wU : Option String) (cN : Option String)
       (dN bN pP : String) (preset : Preset) (plugin : Option String)
       (rArgs : List String),
       (env.invoke (presetPrimaryCall preset pP)).1 = 0 →
       presetRdumpArgs preset = some rArgs →
       (env.invoke (rdumpCallOf rArgs (primaryStdoutOf env preset pP))).1 ≠ 0 →
       runPresetStep env wE wU cN dN bN pP preset plugin =
         .error (rdumpFailureMsg env preset pP rArgs,
           [presetPrimaryCall preset pP,
            rdumpCallOf rArgs (primaryStdoutOf env preset pP)]) ∧
       strContainsSub (rdumpFailureMsg env preset pP rArgs)
         (pyStrip (env.invoke (rdumpCallOf rArgs (primaryStdoutOf env preset pP))).2.2)
         = true ∧
       (pyStrip (env.invoke (rdumpCallOf rArgs (primaryStdoutOf env preset pP))).2.2 = "" →
         strContainsSub (rdumpFailureMsg env preset pP rArgs) preset.name = true)) ∧
    (∀ (env : QueryEnv) (q : String) (toks : List String) (e : InputEntry)
       (rest : List InputEntry) (files : List OutputFile) (meta : List QueryMeta)
       (calls : List InvCall),
       ¬ e.path = "" →
       (env.invoke (queryCallOf q toks e.path)).1 ≠ 0 →
       runQueryEntries env q toks (e :: rest) files meta calls =
         .error (queryFailureMsg env q toks e,
           calls ++ [queryCallOf q toks e.path]) ∧
       strContainsSub (queryFailureMsg env q toks e)
         (pyStrip (env.invoke (queryCallOf q toks e.path)).2.2) = true ∧
       (pyStrip (env.invoke (queryCallOf q toks e.path)).2.2 = "" →
         strContainsSub (queryFailureMsg env q toks e) q = true ∧
         strContainsSub (queryFailureMsg env q toks e)
           (if e.displayName ≠ "" then e.displayName else pathName e.path) = true)) ∧
    (∀ (env : BundleEnv) (cfg : BundleConfig) (ins : List InputEntry) (out : String)
       (r : BundleRunResult),
       (runBundle env cfg ins out).result = .ok r →
       ∀ c ∈ (runBundle env cfg ins out).calls, (env.invoke c).1 = 0) ∧
    (∀ (env : QueryEnv) (cfg : QueryConfig) (ins : List InputEntry) (out : String)
       (r : QueryRunResult),
       (runQuery env cfg ins out).result = .ok r →
       ∀ c ∈ (runQuery env cfg ins out).calls, (env.invoke c).1 = 0) := by
  refine ⟨?_, ?_, ?_, runBundle_ok_all_exit_zero, runQuery_ok_all_exit_zero⟩
  · intro env wE wU cN dN bN pP preset plugin hx
    refine ⟨?_, primaryFailureMsg_contains env preset pP dN,
      primaryFailureMsg_fallback_names env preset pP dN⟩
    exact runPresetStep_primary_failure env wE wU cN dN bN pP preset plugin hx
  · intro env wE wU cN dN bN pP preset plugin rArgs h0 hargs hx
    refine ⟨?_, rdumpFailureMsg_contains env preset pP rArgs,
      fun h => rdumpFailureMsg_fallback_names env preset pP rArgs h⟩
    exact runPresetStep_rdump_failure env wE wU cN dN bN pP preset plugin rArgs h0 hargs hx
  · intro env q toks e rest files meta calls hp hx
    refine ⟨?_, queryFailureMsg_contains env q toks e,
      fun h => queryFailureMsg_fallback_names env q toks e h⟩
    exact runQueryEntries_head_failure env q toks e rest files meta calls hp hx

/-- C3 witness: a concrete primary failure with diagnostic "boom" aborts the
step with exactly that message. -/
theorem c3_failfast_diagnostics_amended_witness :
    runPresetStep boomBundleEnv false none none "disk.E01" "disk" "/cases/disk.E01"
        mftPreset (some "mft.records") =
      .error (primaryFailureMsg boomBundleEnv mftPreset "/cases/disk.E01" "disk.E01",
        [presetPrimaryCall mftPreset "/cases/disk.E01"]) ∧
    primaryFailureMsg boomBundleEnv mftPreset "/cases/disk.E01" "disk.E01" = "boom" := by
  refine ⟨(c3_failfast_diagnostics_amended.1 boomBundleEnv false none none "disk.E01"
    "disk" "/cases/disk.E01" mftPreset (some "mft.records") (by decide)).1, by decide⟩

/-- C4 counterexample: a bundle run with inline Yara rule text whose first
preset invocation raises mid-run creates the temporary rule file but never
removes it — the `unlink` at line 793 is not in a `finally` block, so a run
that fails partway leaks the file, contradicting the claim. -/
theorem c4_tmpfile_leak_counterexample :
    (runBundle boomBundleEnv c4Cfg [diskEntry] "/out").result = .error "boom" ∧
    (runBundle boomBundleEnv c4Cfg [diskEntry] "/out").tmpRuleCreated = true ∧
    (runBundle boomBundleEnv c4Cfg [diskEntry] "/out").tmpRuleDeleted = false := by
  exact ⟨rfl, rfl, rfl⟩

/-- C4 (amended): the temporary rule file is removed exactly when the preset
loop runs to completion — in particular on every successful run — and it is
only ever removed if it was created; but a run that raises mid-loop skips
the removal. -/
theorem c4_tmpfile_cleanup_amended (env : BundleEnv) (cfg : BundleConfig)
    (ins : List InputEntry) (out : String) :
    ((runBundle env cfg ins out).loopCompleted = true →
       (runBundle env cfg ins out).tmpRuleDeleted
         = (runBundle env cfg ins out).tmpRuleCreated) ∧
    (∀ r, (runBundle env cfg ins out).result = .ok r →
       (runBundle env cfg ins out).tmpRuleDeleted
         = (runBundle env cfg ins out).tmpRuleCreated) ∧
    ((runBundle env cfg ins out).tmpRuleDeleted = true →
       (runBundle env cfg ins out).tmpRuleCreated = true) := by
  unfold runBundle
  cases hp : prepareBundle env cfg ins out with
  | error m => refine ⟨?_, ?_, ?_⟩ <;> simp [errOutcome]
  | ok u =>
    dsimp only
    cases ht : runEntries env (writerEnabledOf cfg) (writerUriOf env cfg) (caseNameOf cfg)
        (availablePresetsOf env cfg) ins emptyTrace with
    | error e =>
      obtain ⟨msg, tr⟩ := e
      refine ⟨?_, ?_, ?_⟩ <;> simp
    | ok tr =>
      dsimp only
      split
      · refine ⟨?_, ?_, ?_⟩ <;> simp
      · refine ⟨?_, ?_, ?_⟩ <;> simp

/-- C4 witness: a successful run with inline rule text creates the temporary
rule file and removes it. -/
theorem c4_tmpfile_cleanup_amended_witness :
    (runBundle okBundleEnv c4Cfg [diskEntry] "/out").result = .ok c4BundleRes ∧
    (runBundle okBundleEnv c4Cfg [diskEntry] "/out").tmpRuleCreated = true ∧
    (runBundle okBundleEnv c4Cfg [diskEntry] "/out").tmpRuleDeleted = true := by
  refine ⟨rfl, rfl, ?_⟩
  have h := (c4_tmpfile_cleanup_amended okBundleEnv c4Cfg [diskEntry] "/out").2.1
    c4BundleRes rfl
  exact h.trans rfl

/-- C5: record export is enabled exactly when the explicit flag is true, or
the flag is absent and an explicit destination URI was supplied in the
configuration (the ambient default does not enable it); an enabled run with
no resolvable URI from either source raises before any invocation (no calls,
no exports); a completed step's export happens exactly when export is
enabled, the resolved URI is truthy and the preset's primary command is
`target-query`; and any run with a non-empty export list had export
enabled. -/
theorem c5_export_enablement :
    (∀ cfg : BundleConfig, writerEnabledOf cfg = true ↔
       (cfg.enableRecordWriter = some true ∨
         (cfg.enableRecordWriter = none ∧
           writerUriFromConfigOf cfg.elasticWriter cfg.recordWriter ≠ none))) ∧
    (∀ (env : BundleEnv) (cfg : BundleConfig) (ins : List InputEntry) (out : String),
       writerEnabledOf cfg = true →
       pyTruthyOpt (writerUriOf env cfg) = false →
       (∀ r, (runBundle env cfg ins out).result ≠ .ok r) ∧
       (runBundle env cfg ins out).calls = [] ∧
       (runBundle env cfg ins out).exports = []) ∧
    (∀ (env : BundleEnv) (wE : Bool) (wU : Option String) (cN : Option String)
       (dN bN pP : String) (preset : Preset) (plugin : Option String) (st : StepOut),
       runPresetStep env wE wU cN dN bN pP preset plugin = .ok st →
       st.exportEvent.isSome =
         (wE && pyTruthyOpt wU && (preset.command.getD "target-query" == "target-query"))) ∧
    (∀ (env : BundleEnv) (cfg : BundleConfig) (ins : List InputEntry) (out : String),
       (runBundle env cfg ins out).exports ≠ [] → writerEnabledOf cfg = true) := by
  refine ⟨?_, ?_, ?_, ?_⟩
  · intro cfg
    unfold writerEnabledOf
    cases hE : cfg.enableRecordWriter with
    | none =>
      constructor
      · intro h
        exact Or.inr ⟨rfl, Option.ne_none_iff_isSome.mpr h⟩
      · rintro (h | ⟨-, h⟩)
        · cases h
        · exact Option.ne_none_iff_isSome.mp h
    | some b => cases b <;> simp
  · intro env cfg ins out h1 h2
    obtain ⟨m, hm⟩ := prepareBundle_error_of_no_writer_uri env cfg ins out h1 h2
    unfold runBundle
    rw [hm]
    exact ⟨fun r h => Except.noConfusion h, rfl, rfl⟩
  · intro env wE wU cN dN bN pP preset plugin st h
    exact (runPresetStep_ok_spec env wE wU cN dN bN pP preset plugin st h).2.1
  · intro env cfg ins out hne
    by_cases h : writerEnabledOf cfg = true
    · exact h
    · exact absurd (runBundle_exports_empty_of_disabled env cfg ins out
        (by simpa using h)) hne

/-- C5 witness: export explicitly enabled with no destination URI anywhere
(no configured value, no ambient default) raises before any invocation. -/
theorem c5_export_enablement_witness :
    writerEnabledOf c5Cfg = true ∧
    pyTruthyOpt (writerUriOf okBundleEnv c5Cfg) = false ∧
    (runBundle okBundleEnv c5Cfg [diskEntry] "/out").calls = [] ∧
    (runBundle okBundleEnv c5Cfg [diskEntry] "/out").exports = [] := by
  have h := c5_export_enablement.2.1 okBundleEnv c5Cfg [diskEntry] "/out" rfl rfl
  exact ⟨rfl, rfl, h.2.1, h.2.2⟩

/-- C10: every record exported by a bundle run comes from a `target-query`
invocation — a completed step only captures record bytes when the preset's
primary command is `target-query`, so presets with a different primary
command (such as the `target-reg` SAM preset) send nothing to the writer
even when export is enabled. -/
theorem c10_export_only_target_query :
    (∀ (env : BundleEnv) (cfg : BundleConfig) (ins : List InputEntry) (out : String),
       ∀ e ∈ (runBundle env cfg ins out).exports, e.queryName = "target-query") ∧
    (∀ (wE : Bool) (wU : Option String) (cmd : String) (queryStdout : PyData),
       (recordBytesOf wE wU cmd queryStdout).isSome = true → cmd = "target-query") := by
  constructor
  · exact runBundle_exports_queryName
  · intro wE wU cmd queryStdout h
    unfold recordBytesOf at h
    split at h
    · exact (by assumption : _ ∧ _ ∧ cmd = "target-query").2.2
    · simp at h

/-- C10 witness: the user-information scope runs one `target-query` preset
and one `target-reg` preset with export enabled; exactly one export event is
produced, and it is for `target-query`. -/
theorem c10_export_only_target_query_witness :
    (runBundle okBundleEnv c10Cfg [diskEntry] "/out").exports = [c10Ev] ∧
    c10Ev.queryName = "target-query" := by
  refine ⟨rfl, ?_⟩
  refine c10_export_only_target_query.1 okBundleEnv c10Cfg [diskEntry] "/out" c10Ev ?_
  rw [show (runBundle okBundleEnv c10Cfg [diskEntry] "/out").exports = [c10Ev] from rfl]
  exact List.mem_singleton_self c10Ev

end DissectWorker

